import Mathlib

/-!
Verification of the color_signal_system repository (LED tape light effect
engine).  The repository contains two coexisting implementations of the
data model: the `models/` package (used together with `LightScene` and the
`controllers/osc_handler.py` OSC plane) and the `core/` package.  Both are
embedded below, in the namespaces `CSS.Models` and `CSS.Core`.

Python floats are embedded as `ℚ` (all arithmetic relevant to the claims is
exact at the inputs used; the spec itself only demands equality "within
floating-point tolerance").  Python `int(x)` truncation toward zero is
`CSS.pytrunc`, Python `x % m` on floats (sign of the divisor, here always
positive) is `CSS.pymod`.
-/

namespace CSS

/-- Python float modulo for a positive modulus: `a - m * ⌊a / m⌋`. -/
def pymod (a m : ℚ) : ℚ := a - m * ⌊a / m⌋

/-- Python `int()` truncation toward zero of a float. -/
def pytrunc (q : ℚ) : ℤ := if 0 ≤ q then ⌊q⌋ else -⌊-q⌋

/-- A (simplified) model of Python runtime values as they appear in OSC
message payloads: numbers, strings, booleans, lists and string-keyed dicts. -/
inductive PyVal where
  | int (n : ℤ)
  | float (q : ℚ)
  | str (s : String)
  | boolean (b : Bool)
  | list (l : List PyVal)
  | dict (l : List (String × PyVal))

/-- Numeric value of a Python object (ints, floats and bools coerce). -/
def PyVal.toRat : PyVal → ℚ
  | .int n => n
  | .float q => q
  | .boolean b => if b then 1 else 0
  | _ => 0

/-- Python `int(x)` applied to a numeric object. -/
def PyVal.toInt (v : PyVal) : ℤ := pytrunc v.toRat

/-- Python truthiness of a value (used for `bool`-typed attributes). -/
def PyVal.toBool : PyVal → Bool
  | .int n => n ≠ 0
  | .float q => q ≠ 0
  | .boolean b => b
  | .str s => s ≠ ""
  | .list l => !l.isEmpty
  | .dict l => !l.isEmpty

/-- Elements of a Python list coerced to ints (color index lists…). -/
def PyVal.toIntList : PyVal → List ℤ
  | .list l => l.map PyVal.toInt
  | _ => []

/-- Elements of a Python list coerced to rationals (transparency lists…). -/
def PyVal.toRatList : PyVal → List ℚ
  | .list l => l.map PyVal.toRat
  | _ => []

/-- A two-element Python list read as a `[lo, hi]` pair (`move_range`). -/
def PyVal.toRatPair : PyVal → ℚ × ℚ
  | .list (a :: b :: _) => (a.toRat, b.toRat)
  | _ => (0, 0)

/-- Lookup of a key in a Python dict value. -/
def PyVal.dget : PyVal → String → Option PyVal
  | .dict l, k => l.lookup k
  | _, _ => none

/-- Names actually defined (or imported) at module level in
`src/utils/color_utils.py`; a `from utils.color_utils import n` statement
succeeds exactly when `n` is in this list. -/
def colorUtilsNames : List String :=
  ["List", "Tuple", "Dict", "COLOR_MAP", "COLOR_NAMES", "get_color_by_id",
   "get_color_hex", "rgb_to_hex", "hex_to_rgb", "blend_colors",
   "adjust_brightness", "get_all_color_options", "parse_color_option"]

/-- Python `from <module> import <name>`: succeeds if the module defines the
name, otherwise raises `ImportError`. -/
def pyImportFrom (moduleNames : List String) (n : String) : Except String Unit :=
  if n ∈ moduleNames then .ok () else .error ("ImportError: cannot import name " ++ n)

/-- Integer range `[a, b]` as a list (empty if `b < a`), for Python
`range(a, b + 1)` loops. -/
def intRange (a b : ℤ) : List ℤ := (List.range (b + 1 - a).toNat).map (fun (i : ℕ) => a + (i : ℤ))

/-- Clamp an int channel value to 0..255 (`max(0, min(255, x))`). -/
def clampChan (x : ℤ) : ℤ := max 0 (min 255 x)

/-- Modelled from the spec: the repository's `config.py` is not present under
`src/` (it is imported by `main.py`, `models/light_scene.py`,
`models/light_segment.py` and `controllers/osc_handler.py`).  Per spec §4.1 the
engine keeps five palettes `"A".."E"`, each holding 6 RGB colors by default,
with palette A's index 1 being red `(255,0,0)` (spec scenario S1).  The
remaining default entries are not pinned down by the spec; none of the verified
claims depends on them. -/
def DEFAULT_COLOR_PALETTES : List (String × List (List ℤ)) :=
  [("A", [[0, 0, 0], [255, 0, 0], [0, 255, 0], [0, 0, 255], [255, 255, 0], [0, 255, 255]]),
   ("B", [[0, 0, 0], [255, 0, 0], [0, 255, 0], [0, 0, 255], [255, 255, 0], [0, 255, 255]]),
   ("C", [[0, 0, 0], [255, 0, 0], [0, 255, 0], [0, 0, 255], [255, 255, 0], [0, 255, 255]]),
   ("D", [[0, 0, 0], [255, 0, 0], [0, 255, 0], [0, 0, 255], [255, 255, 0], [0, 255, 255]]),
   ("E", [[0, 0, 0], [255, 0, 0], [0, 255, 0], [0, 0, 255], [255, 255, 0], [0, 255, 255]])]

/-- Modelled from the spec: `config.DEFAULT_LED_COUNT` (spec §4.6.2: 225). -/
def DEFAULT_LED_COUNT : ℤ := 225

/-- Modelled from the spec: `config.DEFAULT_FPS` (spec §4.6.2: 60). -/
def DEFAULT_FPS : ℤ := 60

namespace Models

/-- The segment of `src/models/light_segment.py`.  `rgb_color` is a cache
always recomputed from `color` (at `__init__` and in `update_param`), so it is
represented by the function `calculateRgb` below rather than a field;
`total_length`, in contrast, is set once at `__init__` and never refreshed by
this variant's `update_param`, so it is kept as an explicit field. -/
structure LightSegment where
  segment_ID : ℤ
  color : List ℤ
  transparency : List ℚ
  length : List ℤ
  move_speed : ℚ
  move_range : ℚ × ℚ
  initial_position : ℚ
  current_position : ℚ
  is_edge_reflect : Bool
  dimmer_time : List ℤ
  gradient : Bool
  fade : Bool
  gradient_colors : List ℤ
  total_length : ℤ
deriving Repr, DecidableEq

/-- `LightSegment.__init__` (src/models/light_segment.py lines 12-46). -/
def mkSegment (ID : ℤ) (color : List ℤ) (transparency : List ℚ) (length : List ℤ)
    (move_speed : ℚ) (move_range : ℚ × ℚ) (initial_position : ℚ)
    (is_edge_reflect : Bool) (dimmer_time : List ℤ) : LightSegment :=
  { segment_ID := ID
    color := color
    transparency := transparency
    length := length
    move_speed := move_speed
    move_range := move_range
    initial_position := initial_position
    current_position := initial_position
    is_edge_reflect := is_edge_reflect
    dimmer_time := dimmer_time
    gradient := false
    fade := false
    gradient_colors := [0, -1, -1]
    total_length := length.sum }

/-- `setattr(self, param_name, value)` restricted to the declared attributes;
the source stores unknown names as dynamic attributes (none of the verified
claims ever reads such an attribute back, so they are dropped here). -/
def setParam (s : LightSegment) (p : String) (v : PyVal) : LightSegment :=
  if p = "color" then { s with color := v.toIntList }
  else if p = "transparency" then { s with transparency := v.toRatList }
  else if p = "length" then { s with length := v.toIntList }
  else if p = "move_speed" then { s with move_speed := v.toRat }
  else if p = "move_range" then { s with move_range := v.toRatPair }
  else if p = "initial_position" then { s with initial_position := v.toRat }
  else if p = "current_position" then { s with current_position := v.toRat }
  else if p = "is_edge_reflect" then { s with is_edge_reflect := v.toBool }
  else if p = "dimmer_time" then { s with dimmer_time := v.toIntList }
  else if p = "gradient" then { s with gradient := v.toBool }
  else if p = "fade" then { s with fade := v.toBool }
  else if p = "gradient_colors" then { s with gradient_colors := v.toIntList }
  else s

/-- `LightSegment.update_param` (src/models/light_segment.py lines 48-66):
plain `setattr` (with an RGB-cache refresh on `color`), then, when the
parameter is `move_range`, clamp `current_position` into the new range. -/
def updateParam (s : LightSegment) (p : String) (v : PyVal) : LightSegment :=
  let s1 := setParam s p v
  if p = "move_range" then
    if s1.current_position < s1.move_range.1 then
      { s1 with current_position := s1.move_range.1 }
    else if s1.current_position > s1.move_range.2 then
      { s1 with current_position := s1.move_range.2 }
    else s1
  else s1

/-- `LightSegment.update_position` (src/models/light_segment.py lines 68-91).
One reflection per boundary in reflect mode; a single shift (no modulo) in
wrap mode. -/
def updatePosition (s : LightSegment) (fps : ℤ) : LightSegment :=
  let dt : ℚ := 1 / (fps : ℚ)
  let delta := s.move_speed * dt
  let pos := s.current_position + delta
  let lo := s.move_range.1
  let hi := s.move_range.2
  if s.is_edge_reflect then
    if pos < lo then
      { s with current_position := 2 * lo - pos, move_speed := s.move_speed * (-1) }
    else if pos > hi then
      { s with current_position := 2 * hi - pos, move_speed := s.move_speed * (-1) }
    else { s with current_position := pos }
  else
    if pos < lo then { s with current_position := hi - (lo - pos) }
    else if pos > hi then { s with current_position := lo + (pos - hi) }
    else { s with current_position := pos }

/-- `LightSegment.calculate_rgb` (src/models/light_segment.py lines 93-125):
look every color index up in the named palette (falling back to palette "A",
and to red for invalid indices), then pad the result to at least 4 entries. -/
def calculateRgb (s : LightSegment) (paletteName : String) : List (List ℤ) :=
  let palette := ((DEFAULT_COLOR_PALETTES.lookup paletteName).getD
    ((DEFAULT_COLOR_PALETTES.lookup "A").getD []))
  let rgbValues := s.color.map (fun idx =>
    if 0 ≤ idx ∧ idx < (palette.length : ℤ) then palette.getD idx.toNat [255, 0, 0]
    else [255, 0, 0])
  rgbValues ++ List.replicate (4 - rgbValues.length) (rgbValues.getLastD [255, 0, 0])

/-- `LightSegment.apply_dimming` (src/models/light_segment.py lines 127-159).
Note the quadratic easing (`progress * progress`) on both ramps. -/
def applyDimming (s : LightSegment) (currentTime : ℚ) : ℚ :=
  if ¬s.fade ∨ s.dimmer_time.length < 5 ∨ s.dimmer_time.getD 4 0 = 0 then 1
  else
    let cycleTime := s.dimmer_time.getD 4 0
    let ms : ℤ := pytrunc (pymod (currentTime * 1000) (cycleTime : ℚ))
    let fadeInStart := s.dimmer_time.getD 0 0
    let fadeInEnd := s.dimmer_time.getD 1 0
    let fadeOutStart := s.dimmer_time.getD 2 0
    let fadeOutEnd := s.dimmer_time.getD 3 0
    if ms < fadeInStart then 0
    else if ms < fadeInEnd then
      let progress : ℚ := ((ms - fadeInStart : ℤ) : ℚ) / ((max 1 (fadeInEnd - fadeInStart) : ℤ) : ℚ)
      progress * progress
    else if ms < fadeOutStart then 1
    else if ms < fadeOutEnd then
      let progress : ℚ := ((ms - fadeOutStart : ℤ) : ℚ) / ((max 1 (fadeOutEnd - fadeOutStart) : ℤ) : ℚ)
      1 - progress * progress
    else 0

/-- Result of `LightSegment.get_light_data` (src/models/light_segment.py
lines 161-214): brightness, the four control positions, the four control
colors and the transparency stops. -/
structure LightData where
  brightness : ℚ
  positions : List ℤ
  colors : List (List ℤ)
  transparency : List ℚ
deriving Repr, DecidableEq

/-- `LightSegment.get_light_data` (src/models/light_segment.py lines 161-214)
at `current_time = 0.0` (the default used by the compositor).  When the
gradient override is enabled with valid palette indices, the source calls
`interpolate_colors`, a name whose import from `utils.color_utils`
(src/models/light_segment.py line 5) fails because the module does not define
it; that path therefore raises. -/
def getLightData (s : LightSegment) (paletteName : String) (currentTime : ℚ) :
    Except String LightData :=
  let brightness := if s.fade then applyDimming s currentTime else 1
  let segmentStart := pytrunc (s.current_position - (s.total_length : ℚ) / 2)
  let positions : List ℤ :=
    [segmentStart,
     segmentStart + s.length.getD 0 0,
     segmentStart + s.length.getD 0 0 + s.length.getD 1 0,
     segmentStart + s.total_length]
  let colors := calculateRgb s paletteName
  if s.gradient ∧ s.gradient_colors.getD 0 0 = 1 then
    let palette := ((DEFAULT_COLOR_PALETTES.lookup paletteName).getD
      ((DEFAULT_COLOR_PALETTES.lookup "A").getD []))
    let leftIdx := s.gradient_colors.getD 1 0
    let rightIdx := s.gradient_colors.getD 2 0
    if 0 ≤ leftIdx ∧ leftIdx < (palette.length : ℤ) ∧ 0 ≤ rightIdx ∧ rightIdx < (palette.length : ℤ) then
      match pyImportFrom colorUtilsNames "interpolate_colors" with
      | .error e => .error e
      | .ok _ => .error "NameError: interpolate_colors"
    else
      .ok ⟨brightness, positions, colors, s.transparency⟩
  else
    .ok ⟨brightness, positions, colors, s.transparency⟩

/-- Compositing buffers of `LightEffect.get_led_output`: per-LED colors and
per-LED accumulated transparency. -/
def Buf := List (List ℤ) × List ℚ

/-- Stable ascending insertion by key, modelling Python
`sorted(self.segments.items(), key=lambda x: x[0])`. -/
def insertByKey {α : Type} (kv : ℤ × α) : List (ℤ × α) → List (ℤ × α)
  | [] => [kv]
  | h :: t => if kv.1 < h.1 then kv :: h :: t else h :: insertByKey kv t

/-- Sort an association list by key ascending. -/
def sortByKey {α : Type} (l : List (ℤ × α)) : List (ℤ × α) :=
  l.foldr insertByKey []

/-- One iteration of the inner LED loop of the models-variant
`LightEffect.get_led_output` (src/models/light_effect.py lines 93-144).  The
body selects the sub-segment and endpoint colors (lines 97-116, pure), then
executes `from utils.color_utils import interpolate_colors` (line 118), which
fails since `utils.color_utils` defines no such name; `apply_brightness`
(line 121) and `apply_transparency` (line 132) are missing too, and
`blend_colors` (line 137) is called with two arguments against a
three-parameter signature. -/
def ledLoopBody (ledCount : ℤ) (ld : LightData) (buf : Buf) (p : ℤ) :
    Except String Buf :=
  if p < 0 ∨ ledCount ≤ p then .ok buf
  else
    let _subSegment :=
      if p ≤ ld.positions.getD 1 0 then
        (0, ld.colors.getD 0 [], ld.colors.getD 1 [])
      else if p ≤ ld.positions.getD 2 0 then
        (1, ld.colors.getD 1 [], ld.colors.getD 2 [])
      else
        (2, ld.colors.getD 2 [], ld.colors.getD 3 [])
    match pyImportFrom colorUtilsNames "interpolate_colors" with
    | .error e => .error e
    | .ok _ => .error "NameError: interpolate_colors"

/-- Monadic fold of the LED loop over a list of LED indices. -/
def ledLoop (ledCount : ℤ) (ld : LightData) : List ℤ → Buf → Except String Buf
  | [], buf => .ok buf
  | p :: rest, buf =>
    match ledLoopBody ledCount ld buf p with
    | .error e => .error e
    | .ok buf' => ledLoop ledCount ld rest buf'

/-- Processing of one segment by the models-variant `get_led_output`
(src/models/light_effect.py lines 79-144): fetch its light data, skip it if
its brightness is ≤ 0, otherwise run the LED loop over the clipped position
range. -/
def processSegment (ledCount : ℤ) (paletteName : String) (buf : Buf)
    (s : LightSegment) : Except String Buf :=
  match getLightData s paletteName 0 with
  | .error e => .error e
  | .ok ld =>
    if ld.brightness ≤ 0 then .ok buf
    else
      let startPos := max 0 (ld.positions.getD 0 0)
      let endPos := min (ledCount - 1) (ld.positions.getD 3 0)
      ledLoop ledCount ld (intRange startPos endPos) buf

/-- Fold of `processSegment` over the sorted segment list. -/
def processSegments (ledCount : ℤ) (paletteName : String) :
    List (ℤ × LightSegment) → Buf → Except String Buf
  | [], buf => .ok buf
  | (_, s) :: rest, buf =>
    match processSegment ledCount paletteName buf s with
    | .error e => .error e
    | .ok buf' => processSegments ledCount paletteName rest buf'

/-- The effect of `src/models/light_effect.py`. -/
structure LightEffect where
  effect_ID : ℤ
  segments : List (ℤ × LightSegment)
  led_count : ℤ
  fps : ℤ
  current_palette : String
deriving Repr, DecidableEq

/-- `LightEffect.__init__` (src/models/light_effect.py lines 13-27). -/
def mkEffect (ID ledCount fps : ℤ) : LightEffect :=
  { effect_ID := ID, segments := [], led_count := ledCount, fps := fps,
    current_palette := "A" }

/-- Insert or overwrite a key in an insertion-ordered dict (Python dict
assignment `d[k] = v`). -/
def dput {α : Type} (l : List (ℤ × α)) (k : ℤ) (v : α) : List (ℤ × α) :=
  if (l.lookup k).isSome then
    l.map (fun kv => if kv.1 = k then (k, v) else kv)
  else l ++ [(k, v)]

/-- `LightEffect.add_segment` (src/models/light_effect.py lines 29-37). -/
def addSegment (e : LightEffect) (ID : ℤ) (s : LightSegment) : LightEffect :=
  { e with segments := dput e.segments ID s }

/-- `LightEffect.get_led_output` of the models variant
(src/models/light_effect.py lines 68-146).  It processes segments in
ascending id order over zeroed buffers; every produced frame requires the
LED loop, whose body starts with imports that fail. -/
def getLedOutput (e : LightEffect) : Except String (List (List ℤ)) :=
  let buf0 : Buf := (List.replicate e.led_count.toNat [0, 0, 0],
    List.replicate e.led_count.toNat 1)
  match processSegments e.led_count e.current_palette (sortByKey e.segments) buf0 with
  | .error err => .error err
  | .ok buf => .ok buf.1

/-- The scene of `src/models/light_scene.py`.  `effects` and `palettes` are
insertion-ordered dicts, embedded as association lists. -/
structure LightScene where
  scene_ID : ℤ
  effects : List (ℤ × LightEffect)
  current_effect_ID : Option ℤ
  palettes : List (String × List (List ℤ))
  current_palette : String
deriving Repr, DecidableEq

/-- `LightScene.__init__` (src/models/light_scene.py lines 14-25). -/
def mkScene (ID : ℤ) : LightScene :=
  { scene_ID := ID, effects := [], current_effect_ID := none,
    palettes := DEFAULT_COLOR_PALETTES, current_palette := "A" }

/-- `LightScene.add_effect` (src/models/light_scene.py lines 27-39): store
the effect, stamp the scene's current palette on it, and make it current if
no effect is current yet. -/
def addEffect (sc : LightScene) (ID : ℤ) (e : LightEffect) : LightScene :=
  let e' := { e with current_palette := sc.current_palette }
  { sc with
    effects := dput sc.effects ID e'
    current_effect_ID :=
      match sc.current_effect_ID with
      | none => some ID
      | some c => some c }

/-- `LightScene.remove_effect` (src/models/light_scene.py lines 41-56).  When
the removed effect was current, `next(iter(self.effects.keys()))` — the FIRST
remaining key in dict insertion order — becomes current. -/
def removeEffect (sc : LightScene) (ID : ℤ) : LightScene :=
  if (sc.effects.lookup ID).isSome then
    let remaining := sc.effects.filter (fun kv => kv.1 ≠ ID)
    if sc.current_effect_ID = some ID then
      { sc with
        effects := remaining
        current_effect_ID :=
          match remaining with
          | [] => none
          | h :: _ => some h.1 }
    else
      { sc with effects := remaining }
  else sc

/-- One segment entry of the saved JSON document
(src/models/light_scene.py lines 136-156).  Fields the loader treats as
optional (`current_position`, `gradient`, `fade`, `gradient_colors`) are
`Option`s; `save_to_json` always emits them. -/
structure SegmentDoc where
  segment_ID : ℤ
  color : List ℤ
  transparency : List ℚ
  length : List ℤ
  move_speed : ℚ
  move_range : ℚ × ℚ
  initial_position : ℚ
  current_position : Option ℚ
  is_edge_reflect : Bool
  dimmer_time : List ℤ
  gradient : Option Bool
  fade : Option Bool
  gradient_colors : Option (List ℤ)
deriving Repr, DecidableEq

/-- One effect entry of the saved JSON document
(src/models/light_scene.py lines 129-158). -/
structure EffectDoc where
  effect_ID : ℤ
  led_count : ℤ
  fps : ℤ
  segments : List (ℤ × SegmentDoc)
deriving Repr, DecidableEq

/-- The JSON scene document (src/models/light_scene.py lines 120-126).  The
loader reads `current_palette` and `palettes` with a fallback and only honours
a non-null `current_effect_ID`. -/
structure SceneDoc where
  scene_ID : ℤ
  current_effect_ID : Option ℤ
  current_palette : Option String
  palettes : Option (List (String × List (List ℤ)))
  effects : List (ℤ × EffectDoc)
deriving Repr, DecidableEq

/-- The segment dict written by `LightScene.save_to_json`
(src/models/light_scene.py lines 136-156); the `gradient`, `fade` and
`gradient_colors` keys are guarded by `hasattr`, which always holds after
`__init__`. -/
def segToDoc (s : LightSegment) : SegmentDoc :=
  { segment_ID := s.segment_ID
    color := s.color
    transparency := s.transparency
    length := s.length
    move_speed := s.move_speed
    move_range := s.move_range
    initial_position := s.initial_position
    current_position := some s.current_position
    is_edge_reflect := s.is_edge_reflect
    dimmer_time := s.dimmer_time
    gradient := some s.gradient
    fade := some s.fade
    gradient_colors := some s.gradient_colors }

/-- `LightScene.save_to_json` (src/models/light_scene.py lines 113-161),
with the file write abstracted away: the produced JSON document. -/
def saveToJson (sc : LightScene) : SceneDoc :=
  { scene_ID := sc.scene_ID
    current_effect_ID := sc.current_effect_ID
    current_palette := some sc.current_palette
    palettes := some sc.palettes
    effects := sc.effects.map (fun kv =>
      (kv.1,
       { effect_ID := kv.2.effect_ID
         led_count := kv.2.led_count
         fps := kv.2.fps
         segments := kv.2.segments.map (fun kv2 => (kv2.1, segToDoc kv2.2)) })) }

/-- Rebuild one segment while loading (src/models/light_scene.py lines
197-219): construct through `__init__`, then restore `current_position`,
`gradient`, `fade` and `gradient_colors` when present. -/
def segOfDoc (sd : SegmentDoc) : LightSegment :=
  let seg0 := mkSegment sd.segment_ID sd.color sd.transparency sd.length
    sd.move_speed sd.move_range sd.initial_position sd.is_edge_reflect sd.dimmer_time
  let seg1 := match sd.current_position with
    | some cp => { seg0 with current_position := cp }
    | none => seg0
  let seg2 := match sd.gradient with
    | some g => { seg1 with gradient := g }
    | none => seg1
  let seg3 := match sd.fade with
    | some f => { seg2 with fade := f }
    | none => seg2
  match sd.gradient_colors with
  | some gc => { seg3 with gradient_colors := gc }
  | none => seg3

/-- Rebuild one effect while loading (src/models/light_scene.py lines
185-221): a fresh `LightEffect` through `__init__`, then `add_segment` for
every stored segment. -/
def effOfDoc (ed : EffectDoc) : LightEffect :=
  ed.segments.foldl (fun e kv2 => addSegment e kv2.1 (segOfDoc kv2.2))
    (mkEffect ed.effect_ID ed.led_count ed.fps)

/-- `LightScene.load_from_json` (src/models/light_scene.py lines 163-229):
fresh scene, restore palette book, rebuild effects bottom-up through
`add_segment`/`add_effect`, and finally restore a non-null
`current_effect_ID`. -/
def loadFromJson (doc : SceneDoc) : LightScene :=
  let sc0 := mkScene doc.scene_ID
  let sc1 := { sc0 with current_palette := doc.current_palette.getD "A" }
  let sc2 := match doc.palettes with
    | some ps => { sc1 with palettes := ps }
    | none => sc1
  let sc3 := doc.effects.foldl (fun sc kv => addEffect sc kv.1 (effOfDoc kv.2)) sc2
  match doc.current_effect_ID with
  | some c => { sc3 with current_effect_ID := some c }
  | none => sc3

/-- The per-segment observation named by the round-trip claim: color,
transparency, length, move_speed, move_range, initial_position,
is_edge_reflect, dimmer_time, gradient, fade, gradient_colors and (restored,
not reset) current_position, together with the segment id. -/
def segView (s : LightSegment) :=
  (s.segment_ID, s.color, s.transparency, s.length, s.move_speed, s.move_range,
   s.initial_position, s.is_edge_reflect, s.dimmer_time, s.gradient, s.fade,
   s.gradient_colors, s.current_position)

/-- The per-effect observation named by the round-trip claim: effect_ID,
led_count, fps and all segments. -/
def effView (e : LightEffect) :=
  (e.effect_ID, e.led_count, e.fps, e.segments.map (fun kv => (kv.1, segView kv.2)))

/-- The scene observation named by the round-trip claim: scene_ID,
current_effect_ID, current_palette, palettes and all effects. -/
def sceneView (sc : LightScene) :=
  (sc.scene_ID, sc.current_effect_ID, sc.current_palette, sc.palettes,
   sc.effects.map (fun kv => (kv.1, effView kv.2)))

end Models

namespace Core

/-- `COLOR_MAP` of `src/core/light_segment.py` lines 75-87. -/
def COLOR_MAP : List (ℤ × List ℤ) :=
  [(0, [0, 0, 0]), (1, [255, 0, 0]), (2, [0, 255, 0]), (3, [0, 0, 255]),
   (4, [255, 255, 0]), (5, [255, 0, 255]), (6, [0, 255, 255]),
   (7, [255, 255, 255]), (8, [255, 127, 0]), (9, [127, 0, 255]),
   (10, [0, 127, 255])]

/-- The segment of `src/core/light_segment.py`.  `control_points_offsets` and
`total_length` are caches maintained by `__init__` and `update_param`;
`rgb_color` is always recomputed from `color` on update, so it is represented
by the function `calculateRgb`. -/
structure LightSegment where
  segment_ID : ℤ
  color : List ℤ
  transparency : List ℚ
  length : List ℤ
  move_speed : ℚ
  move_range : ℚ × ℚ
  initial_position : ℚ
  current_position : ℚ
  is_edge_reflect : Bool
  dimmer_time : List ℤ
  time : ℚ
  direction : ℤ
  control_points_offsets : List ℤ
  total_length : ℤ
deriving Repr, DecidableEq

/-- `LightSegment.__init__` (src/core/light_segment.py lines 6-27). -/
def mkSegment (ID : ℤ) (color : List ℤ) (transparency : List ℚ) (length : List ℤ)
    (move_speed : ℚ) (move_range : ℚ × ℚ) (initial_position : ℚ)
    (is_edge_reflect : Bool) (dimmer_time : List ℤ) : LightSegment :=
  { segment_ID := ID
    color := color
    transparency := transparency
    length := length
    move_speed := move_speed
    move_range := move_range
    initial_position := initial_position
    current_position := initial_position
    is_edge_reflect := is_edge_reflect
    dimmer_time := dimmer_time
    time := 0
    direction := if 0 ≤ move_speed then 1 else -1
    control_points_offsets := List.scanl (· + ·) 0 length
    total_length := length.sum }

/-- `LightSegment.calculate_rgb` (src/core/light_segment.py lines 74-89). -/
def calculateRgb (s : LightSegment) : List (List ℤ) :=
  s.color.map (fun cid => (COLOR_MAP.lookup cid).getD [0, 0, 0])

/-- Plain `setattr` over the declared attributes, for the final `else` branch
of the core-variant `update_param`; note in particular that `move_range` is
stored WITHOUT clamping `current_position`. -/
def setParam (s : LightSegment) (p : String) (v : PyVal) : LightSegment :=
  if p = "transparency" then { s with transparency := v.toRatList }
  else if p = "move_range" then { s with move_range := v.toRatPair }
  else if p = "initial_position" then { s with initial_position := v.toRat }
  else if p = "current_position" then { s with current_position := v.toRat }
  else if p = "is_edge_reflect" then { s with is_edge_reflect := v.toBool }
  else if p = "dimmer_time" then { s with dimmer_time := v.toIntList }
  else s

/-- `LightSegment.update_param` of the core variant
(src/core/light_segment.py lines 29-44): special cases for `color` (RGB cache
refresh), `move_speed` (direction flip on sign change) and `length` (offsets
and total length recomputed); everything else is a plain `setattr`. -/
def updateParam (s : LightSegment) (p : String) (v : PyVal) : LightSegment :=
  if p = "color" then { s with color := v.toIntList }
  else if p = "move_speed" then
    let nv := v.toRat
    let dir := if (0 < nv ∧ s.move_speed < 0) ∨ (nv < 0 ∧ 0 < s.move_speed) then
      -s.direction else s.direction
    { s with move_speed := nv, direction := dir }
  else if p = "length" then
    let nl := v.toIntList
    { s with
      length := nl
      control_points_offsets := List.scanl (· + ·) 0 nl
      total_length := nl.sum }
  else setParam s p v

/-- `LightSegment.update_position` of the core variant
(src/core/light_segment.py lines 46-72): one reflection per step in reflect
mode; in wrap mode the out-of-range remainder is taken modulo
`move_range[1] - move_range[0] + 1`. -/
def updatePosition (s : LightSegment) (fps : ℤ) : LightSegment :=
  let dt : ℚ := 1 / (fps : ℚ)
  let t' := s.time + dt
  let delta := s.move_speed * dt
  let np := s.current_position + delta
  let lo := s.move_range.1
  let hi := s.move_range.2
  if s.is_edge_reflect then
    if np < lo then
      { s with
        time := t'
        current_position := lo + (lo - np)
        move_speed := |s.move_speed|
        direction := 1 }
    else if np > hi then
      { s with
        time := t'
        current_position := hi - (np - hi)
        move_speed := -|s.move_speed|
        direction := -1 }
    else { s with time := t', current_position := np }
  else
    if np < lo then
      { s with time := t', current_position := hi - pymod (lo - np) (hi - lo + 1) }
    else if np > hi then
      { s with time := t', current_position := lo + pymod (np - hi) (hi - lo + 1) }
    else { s with time := t', current_position := np }

/-- `LightSegment.apply_dimming` of the core variant
(src/core/light_segment.py lines 91-111): piecewise-LINEAR envelope on the
phase `t = (elapsed mod cycle/1000) * 1000` milliseconds. -/
def applyDimming (s : LightSegment) (elapsed : ℚ) : ℚ :=
  match s.dimmer_time with
  | [startFadeIn, endFadeIn, startFadeOut, endFadeOut, cycleTime] =>
    if cycleTime ≤ 0 then 1
    else
      let t := pymod elapsed ((cycleTime : ℚ) / 1000) * 1000
      if t < startFadeIn then 0
      else if (startFadeIn : ℚ) ≤ t ∧ t < endFadeIn then
        (t - startFadeIn) / ((endFadeIn : ℚ) - startFadeIn)
      else if (endFadeIn : ℚ) ≤ t ∧ t < startFadeOut then 1
      else if (startFadeOut : ℚ) ≤ t ∧ t < endFadeOut then
        1 - (t - startFadeOut) / ((endFadeOut : ℚ) - startFadeOut)
      else 0
  | _ => 1

/-- `LightSegment.get_light_data` of the core variant
(src/core/light_segment.py lines 113-158), with the wall-clock elapsed time an
explicit parameter.  The sparse result maps each covered in-range LED index to
its interpolated RGB and dimmed transparency. -/
def getLightData (s : LightSegment) (elapsed : ℚ) : List (ℤ × (List ℤ × ℚ)) :=
  let dim := applyDimming s elapsed
  let cps := s.control_points_offsets.map
    (fun o => pytrunc (s.current_position + (o : ℚ) * (s.direction : ℚ)))
  let startPos := cps.foldl min (cps.headD 0)
  let endPos := cps.foldl max (cps.headD 0)
  (intRange startPos endPos).filterMap (fun (p : ℤ) =>
    if s.move_range.1 ≤ (p : ℚ) ∧ (p : ℚ) ≤ s.move_range.2 then
      match (List.range (cps.length - 1)).find? (fun i =>
        decide ((cps.getD i 0 ≤ p ∧ p ≤ cps.getD (i + 1) 0) ∨
                (cps.getD (i + 1) 0 ≤ p ∧ p ≤ cps.getD i 0))) with
      | none => none
      | some i =>
        let a := cps.getD i 0
        let b := cps.getD (i + 1) 0
        let t : ℚ := if a = b then 0 else |((p : ℚ) - a) / ((b : ℚ) - a)|
        let c1 := (calculateRgb s).getD i [0, 0, 0]
        let c2 := (calculateRgb s).getD (i + 1) [0, 0, 0]
        let rgb := [pytrunc ((c1.getD 0 0 : ℚ) * (1 - t) + (c2.getD 0 0 : ℚ) * t),
                    pytrunc ((c1.getD 1 0 : ℚ) * (1 - t) + (c2.getD 1 0 : ℚ) * t),
                    pytrunc ((c1.getD 2 0 : ℚ) * (1 - t) + (c2.getD 2 0 : ℚ) * t)]
        let tr := s.transparency.getD i 0 * (1 - t) + s.transparency.getD (i + 1) 0 * t
        some (p, (rgb, max 0 (min 1 (tr * dim))))
    else none)

/-- The effect of `src/core/light_effect.py`. -/
structure LightEffect where
  effect_ID : ℤ
  segments : List (ℤ × LightSegment)
  led_count : ℤ
  fps : ℤ
deriving Repr, DecidableEq

/-- The per-LED update of the core-variant `LightEffect.get_led_output`
(src/core/light_effect.py lines 81-105): skip transparent contributions; if
the accumulated transparency is still at its initial `1.0`, overwrite;
otherwise blend with weights `τ/(τ+α(1-τ))` and `α(1-τ)/(τ+α(1-τ))`. -/
def compositeStep (cur : List ℤ × ℚ) (contrib : List ℤ × ℚ) : List ℤ × ℚ :=
  let rgb := contrib.1
  let tr := contrib.2
  if tr ≤ 0 then cur
  else if 1 ≤ cur.2 then (rgb, tr)
  else
    let blendFactor := tr * (1 - cur.2)
    let totalFactor := cur.2 + blendFactor
    if 0 < totalFactor then
      let wc := cur.2 / totalFactor
      let wn := blendFactor / totalFactor
      ([pytrunc ((cur.1.getD 0 0 : ℚ) * wc + (rgb.getD 0 0 : ℚ) * wn),
        pytrunc ((cur.1.getD 1 0 : ℚ) * wc + (rgb.getD 1 0 : ℚ) * wn),
        pytrunc ((cur.1.getD 2 0 : ℚ) * wc + (rgb.getD 2 0 : ℚ) * wn)],
       1 - (1 - cur.2) * (1 - tr))
    else cur

/-- Application of one `(led_pos, (rgb, transparency))` item to the buffers
(src/core/light_effect.py lines 81-105), guarded by the bounds check. -/
def applyItem (ledCount : ℤ) (buf : List (List ℤ) × List ℚ)
    (item : ℤ × (List ℤ × ℚ)) : List (List ℤ) × List ℚ :=
  if 0 ≤ item.1 ∧ item.1 < ledCount then
    let idx := item.1.toNat
    let cur := (buf.1.getD idx [0, 0, 0], buf.2.getD idx 1)
    let nw := compositeStep cur item.2
    (buf.1.set idx nw.1, buf.2.set idx nw.2)
  else buf

/-- Processing of one segment by the core-variant `get_led_output`: fold its
sparse light data into the buffers. -/
def applySegment (ledCount : ℤ) (elapsed : ℚ)
    (buf : List (List ℤ) × List ℚ) (s : LightSegment) :
    List (List ℤ) × List ℚ :=
  (getLightData s elapsed).foldl (applyItem ledCount) buf

/-- `LightEffect.get_led_output` of the core variant
(src/core/light_effect.py lines 68-107): fold all segments, in dict insertion
order, over zeroed colors and all-1.0 transparency buffers. -/
def getLedOutput (e : LightEffect) (elapsed : ℚ) : List (List ℤ) :=
  ((e.segments.map Prod.snd).foldl (applySegment e.led_count elapsed)
    (List.replicate e.led_count.toNat [0, 0, 0],
     List.replicate e.led_count.toNat 1)).1

end Core

/-- Insert or overwrite a string key in an insertion-ordered dict. -/
def sput {α : Type} (l : List (String × α)) (k : String) (v : α) : List (String × α) :=
  if (l.lookup k).isSome then
    l.map (fun kv => if kv.1 = k then (k, v) else kv)
  else l ++ [(k, v)]

namespace Osc

/-- Names defined (or imported) at module level in
`src/controllers/osc_handler.py` (its lines 1-9 plus the class name); note
`LightSegment` is NOT among them — only `LightEffect` is imported. -/
def oscModuleNames : List String :=
  ["Dict", "List", "Any", "re", "sys", "threading", "dispatcher", "osc_server",
   "udp_client", "LightEffect", "DEFAULT_COLOR_PALETTES", "OSCHandler"]

/-- The mutable state of `OSCHandler` touched by the verified callbacks: the
effect dict handed to the constructor and the handler's palette book
(src/controllers/osc_handler.py lines 12-16). -/
structure OscState where
  light_effects : List (ℤ × Models.LightEffect)
  color_palettes : List (String × List (List ℤ))
deriving Repr, DecidableEq

/-- Modelled from the spec: `config.DEFAULT_TRANSPARENCY` (config.py is not
under src/; spec §4.6.2 only says segments are auto-created with "default
transparency/length/speed/range" without pinning the numbers; these values
are only ever reached if the missing `LightSegment` import were fixed). -/
def DEFAULT_TRANSPARENCY : List ℚ := [1, 1, 1, 1]

/-- Modelled from the spec: `config.DEFAULT_LENGTH` (see
`DEFAULT_TRANSPARENCY`). -/
def DEFAULT_LENGTH : List ℤ := [10, 10, 10]

/-- Modelled from the spec: `config.DEFAULT_MOVE_SPEED` (see
`DEFAULT_TRANSPARENCY`). -/
def DEFAULT_MOVE_SPEED : ℚ := 10

/-- Modelled from the spec: `config.DEFAULT_MOVE_RANGE` (see
`DEFAULT_TRANSPARENCY`). -/
def DEFAULT_MOVE_RANGE : ℚ × ℚ := (0, 224)

/-- Modelled from the spec: `config.DEFAULT_INITIAL_POSITION` (see
`DEFAULT_TRANSPARENCY`). -/
def DEFAULT_INITIAL_POSITION : ℚ := 0

/-- Modelled from the spec: `config.DEFAULT_IS_EDGE_REFLECT` (see
`DEFAULT_TRANSPARENCY`). -/
def DEFAULT_IS_EDGE_REFLECT : Bool := false

/-- Modelled from the spec: `config.DEFAULT_DIMMER_TIME` (see
`DEFAULT_TRANSPARENCY`). -/
def DEFAULT_DIMMER_TIME : List ℤ := [0, 100, 900, 1000, 1000]

/-- The parameter dispatch shared verbatim by `effect_segment_callback` and
`effect_object_callback` (src/controllers/osc_handler.py lines 72-153 and
205-286): grouped dict schemas for `color`, `position` and `span`, direct
`update_param` for any other name.  The `position_interval`, `span_range`,
`span_speed` and `span_interval` updates store dynamic attributes no verified
claim reads back. -/
def applySegmentParam (seg : Models.LightSegment) (param : String) (v : PyVal) :
    Models.LightSegment :=
  if param = "color" then
    match v with
    | .dict d =>
      let s1 := match d.lookup "colors" with
        | some c => Models.updateParam seg "color" c
        | none => seg
      let s2 := match d.lookup "speed" with
        | some sp => Models.updateParam s1 "move_speed" sp
        | none => s1
      match d.lookup "gradient" with
      | some g => Models.updateParam s2 "gradient" (.boolean (decide (g.toRat = 1)))
      | none => s2
    | .list l => if 1 ≤ l.length then Models.updateParam seg "color" (.list l) else seg
    | _ => seg
  else if param = "position" then
    match v with
    | .dict d =>
      let s1 := match d.lookup "initial_position" with
        | some ip =>
          Models.updateParam (Models.updateParam seg "initial_position" ip)
            "current_position" (.float ip.toRat)
        | none => seg
      let s2 := match d.lookup "speed" with
        | some sp => Models.updateParam s1 "move_speed" sp
        | none => s1
      let s3 := match d.lookup "range" with
        | some (.list rl) =>
          if rl.length = 2 then Models.updateParam s2 "move_range" (.list rl) else s2
        | some _ => s2
        | none => s2
      match d.lookup "interval" with
      | some iv => Models.updateParam s3 "position_interval" iv
      | none => s3
    | _ => seg
  else if param = "span" then
    match v with
    | .dict d =>
      let s1 := match d.lookup "span" with
        | some sp =>
          let third := Int.fdiv sp.toInt 3
          Models.updateParam seg "length" (.list [.int third, .int third, .int third])
        | none => seg
      let s2 := match d.lookup "range" with
        | some (.list rl) =>
          if rl.length = 2 then Models.updateParam s1 "span_range" (.list rl) else s1
        | some _ => s1
        | none => s1
      let s3 := match d.lookup "speed" with
        | some sp => Models.updateParam s2 "span_speed" sp
        | none => s2
      let s4 := match d.lookup "interval" with
        | some iv => Models.updateParam s3 "span_interval" iv
        | none => s3
      let s5 := match d.lookup "gradient_colors" with
        | some (.list gl) => Models.updateParam s4 "gradient_colors" (.list gl)
        | some _ => s4
        | none => s4
      match d.lookup "fade" with
      | some f => Models.updateParam s5 "fade" (.boolean (decide (f.toRat = 1)))
      | none => s5
    | _ => seg
  else Models.updateParam seg param v

/-- `OSCHandler.effect_segment_callback` (src/controllers/osc_handler.py
lines 52-161), after address parsing: an unknown effect or segment id is
reported with a warning and the message is discarded, leaving the model
unchanged; otherwise the parameter dispatch is applied to the segment. -/
def effectSegmentCallback (st : OscState) (effectId segmentId : ℤ)
    (param : String) (v : PyVal) : OscState :=
  match st.light_effects.lookup effectId with
  | none => st
  | some eff =>
    match eff.segments.lookup segmentId with
    | none => st
    | some seg =>
      let seg' := applySegmentParam seg param v
      let eff' := { eff with segments := Models.dput eff.segments segmentId seg' }
      { st with light_effects := Models.dput st.light_effects effectId eff' }

/-- `OSCHandler.effect_object_callback` (src/controllers/osc_handler.py
lines 163-294), after address parsing.  A missing effect is created with the
config defaults (lines 177-180).  A missing segment reaches lines 182-200,
which print "creating it" and then evaluate the name `LightSegment`; the
module never imports that name, so the lookup raises `NameError` and the
callback aborts — after the effect insertion but before any segment is
created or any parameter applied.  The result pairs the final state with the
exception outcome. -/
def effectObjectCallback (st : OscState) (effectId segmentId : ℤ)
    (param : String) (v : PyVal) : OscState × Except String Unit :=
  let st1 :=
    match st.light_effects.lookup effectId with
    | some _ => st
    | none =>
      { st with light_effects :=
          st.light_effects ++ [(effectId, Models.mkEffect effectId DEFAULT_LED_COUNT DEFAULT_FPS)] }
  match st1.light_effects.lookup effectId with
  | none => (st1, .error "unreachable")
  | some eff =>
    match eff.segments.lookup segmentId with
    | some seg =>
      let seg' := applySegmentParam seg param v
      let eff' := { eff with segments := Models.dput eff.segments segmentId seg' }
      ({ st1 with light_effects := Models.dput st1.light_effects effectId eff' }, .ok ())
    | none =>
      if "LightSegment" ∈ oscModuleNames then
        let seg0 := Models.mkSegment segmentId [0, 1, 2, 3] DEFAULT_TRANSPARENCY
          DEFAULT_LENGTH DEFAULT_MOVE_SPEED DEFAULT_MOVE_RANGE
          DEFAULT_INITIAL_POSITION DEFAULT_IS_EDGE_REFLECT DEFAULT_DIMMER_TIME
        let eff1 := Models.addSegment eff segmentId seg0
        let seg' := applySegmentParam seg0 param v
        let eff2 := { eff1 with segments := Models.dput eff1.segments segmentId seg' }
        ({ st1 with light_effects := Models.dput st1.light_effects effectId eff2 }, .ok ())
      else (st1, .error "NameError: name LightSegment is not defined")

/-- Group a flat `[r,g,b,r,g,b,…]` payload into clamped RGB triples
(src/controllers/osc_handler.py lines 311-316). -/
def groupTriples : List PyVal → List (List ℤ)
  | a :: b :: c :: rest =>
    [clampChan a.toInt, clampChan b.toInt, clampChan c.toInt] :: groupTriples rest
  | _ => []

/-- `OSCHandler.palette_callback` (src/controllers/osc_handler.py lines
296-334), after address parsing: for `X` in `A..E` and a flat color list of
length divisible by 3, store the clamped triples as palette `X` AND set
`current_palette := X` on every effect (lines 320-321); anything else is
discarded. -/
def paletteCallback (st : OscState) (paletteId : String) (v : PyVal) : OscState :=
  if paletteId ∈ ["A", "B", "C", "D", "E"] then
    match v with
    | .list flat =>
      if flat.length % 3 ≠ 0 then st
      else
        { st with
          color_palettes := sput st.color_palettes paletteId (groupTriples flat)
          light_effects := st.light_effects.map
            (fun kv => (kv.1, { kv.2 with current_palette := paletteId })) }
    | _ => st
  else st

end Osc

/-! Concrete example values used by counterexamples and witnesses. -/

/-- A core-variant segment sitting at position 50 with a wide range. -/
def exCoreSeg50 : Core.LightSegment :=
  Core.mkSegment 1 [1, 1, 1, 1] [1, 1, 1, 1] [1, 1, 1] 5 (0, 200) 50 true [0, 0, 0, 0, 0]

/-- A models-variant segment with `fade = true` and the spec's S6 dimmer
timing `[0, 100, 900, 1000, 1000]`. -/
def exModelsFadeSeg : Models.LightSegment :=
  { Models.mkSegment 1 [1, 1, 1, 1] [1, 1, 1, 1] [1, 1, 1] 0 (0, 200) 0 false
      [0, 100, 900, 1000, 1000] with fade := true }

/-- A core-variant segment with the spec's S6 dimmer timing. -/
def exCoreFadeSeg : Core.LightSegment :=
  Core.mkSegment 1 [1, 1, 1, 1] [1, 1, 1, 1] [1, 1, 1] 0 (0, 200) 0 false
    [0, 100, 900, 1000, 1000]

/-- An OSC handler state with one effect (id 1, palette "A") and the default
palette book. -/
def exOscState : Osc.OscState :=
  { light_effects := [(1, Models.mkEffect 1 10 60)],
    color_palettes := DEFAULT_COLOR_PALETTES }

/-- A models-variant reflect-mode segment at position 5 in range [0, 10]
whose one-tick displacement (speed 25 at 1 fps) overshoots the upper boundary
by more than the range width. -/
def exReflectSeg : Models.LightSegment :=
  Models.mkSegment 1 [1, 1, 1, 1] [1, 1, 1, 1] [1, 1, 1] 25 (0, 10) 5 true [0, 0, 0, 0, 0]

/-- A models-variant reflect-mode segment with a small step (speed 3). -/
def exSlowModelsSeg : Models.LightSegment :=
  Models.mkSegment 1 [1, 1, 1, 1] [1, 1, 1, 1] [1, 1, 1] 3 (0, 10) 5 true [0, 0, 0, 0, 0]

/-- A core-variant wrap-mode segment with a small step (speed 3). -/
def exSlowCoreSeg : Core.LightSegment :=
  Core.mkSegment 1 [1, 1, 1, 1] [1, 1, 1, 1] [1, 1, 1] 3 (0, 10) 5 false [0, 0, 0, 0, 0]

/-- N ticks of the models-variant `update_position` at a fixed fps. -/
def Models.tickN (fps : ℤ) : ℕ → Models.LightSegment → Models.LightSegment
  | 0, s => s
  | n + 1, s => Models.tickN fps n (Models.updatePosition s fps)

/-- N ticks of the core-variant `update_position` at a fixed fps. -/
def Core.tickN (fps : ℤ) : ℕ → Core.LightSegment → Core.LightSegment
  | 0, s => s
  | n + 1, s => Core.tickN fps n (Core.updatePosition s fps)

/-- A core-variant wrap-mode segment in range [0, 9] at position 5, speed 3
(spec-style span 10). -/
def exWrapCoreSeg : Core.LightSegment :=
  Core.mkSegment 1 [1, 1, 1, 1] [1, 1, 1, 1] [1, 1, 1] 3 (0, 9) 5 false [0, 0, 0, 0, 0]

/-- The models-variant twin of `exWrapCoreSeg`. -/
def exWrapModelsSeg : Models.LightSegment :=
  Models.mkSegment 1 [1, 1, 1, 1] [1, 1, 1, 1] [1, 1, 1] 3 (0, 9) 5 false [0, 0, 0, 0, 0]

/-- A scene holding one effect while `current_effect_ID` is still `None`
(as after a direct `scene.effects[1] = effect` assignment that bypasses
`add_effect`). -/
def exSceneNoCur : Models.LightScene :=
  { Models.mkScene 0 with effects := [(1, Models.mkEffect 1 10 60)] }

/-- A core-variant fully-opaque red segment (id 2) at position 0 covering
LEDs 0..3. -/
def exC3red : Core.LightSegment :=
  Core.mkSegment 2 [1, 1, 1, 1] [1, 1, 1, 1] [1, 1, 1] 0 (0, 9) 0 false []

/-- A core-variant fully-opaque blue segment (id 1) at position 0 covering
LEDs 0..3. -/
def exC3blue : Core.LightSegment :=
  Core.mkSegment 1 [3, 3, 3, 3] [1, 1, 1, 1] [1, 1, 1] 0 (0, 9) 0 false []

/-- A 4-LED core effect whose segment dict was populated in the order
id 2 (red) then id 1 (blue). -/
def exC3eff : Core.LightEffect :=
  { effect_ID := 1, segments := [(2, exC3red), (1, exC3blue)], led_count := 4, fps := 60 }

/-- A models-variant segment with zero speed centered at 5 (covering LEDs
2..8) used against the broken models compositor. -/
def exC4seg : Models.LightSegment :=
  Models.mkSegment 1 [1, 1, 1, 1] [1, 1, 1, 1] [2, 2, 2] 0 (0, 9) 5 false [0, 0, 0, 0, 0]

/-- A models-variant effect (10 LEDs) holding `exC4seg`. -/
def exC4eff : Models.LightEffect :=
  { Models.mkEffect 1 10 60 with segments := [(1, exC4seg)] }

/-- A small API-built scene: one effect (id 1) holding one segment (id 2),
added through `add_effect`/`add_segment` so effect 1 is current. -/
def exScene1 : Models.LightScene :=
  Models.addEffect (Models.mkScene 0) 1
    (Models.addSegment (Models.mkEffect 1 10 60) 2
      (Models.mkSegment 2 [1, 2, 3, 0] [1, 1, 1, 1] [1, 2, 3] 5 (0, 9) 4 true
        [0, 100, 900, 1000, 1000]))

/-- An OSC handler state with no effects at all. -/
def exEmptyOsc : Osc.OscState :=
  { light_effects := [], color_palettes := DEFAULT_COLOR_PALETTES }

/-- The spec's S5 message payload: a `color` update dict
`{"colors": [1, 2, 3, 0]}`. -/
def exColorsMsg : PyVal :=
  .dict [("colors", .list [.int 1, .int 2, .int 3, .int 0])]

/-- A scene whose effects were added in the order 1, 3, 2 (so effect 1 is
current and the dict iteration order is [1, 3, 2]). -/
def exScene132 : Models.LightScene :=
  Models.addEffect
    (Models.addEffect
      (Models.addEffect (Models.mkScene 0) 1 (Models.mkEffect 1 10 60))
      3 (Models.mkEffect 3 10 60))
    2 (Models.mkEffect 2 10 60)

/-! General lemmas about the helpers. -/

theorem pymod_nonneg (a : ℚ) {m : ℚ} (hm : 0 < m) : 0 ≤ pymod a m := by
  unfold pymod
  have h := Int.sub_floor_div_mul_nonneg a hm
  linarith [h]

theorem pymod_lt (a : ℚ) {m : ℚ} (hm : 0 < m) : pymod a m < m := by
  unfold pymod
  have h := Int.sub_floor_div_mul_lt a hm
  linarith [h]

theorem pymod_eq_self {a m : ℚ} (h0 : 0 ≤ a) (h1 : a < m) : pymod a m = a := by
  unfold pymod
  have hm : 0 < m := lt_of_le_of_lt h0 h1
  have : ⌊a / m⌋ = 0 := by
    rw [Int.floor_eq_zero_iff]
    constructor
    · positivity
    · rw [div_lt_one hm]; exact h1
  rw [this]
  ring

theorem pymod_add_int_mul {a m : ℚ} (k : ℤ) (hm : 0 < m) :
    pymod (a + m * k) m = pymod a m := by
  unfold pymod
  have hne : m ≠ 0 := ne_of_gt hm
  have : (a + m * k) / m = a / m + k := by
    field_simp
    ring
  rw [this, Int.floor_add_int]
  push_cast
  ring

theorem pymod_self {m : ℚ} (hm : 0 < m) : pymod m m = 0 := by
  have h0 : pymod (0 + m * (1 : ℤ)) m = pymod 0 m := pymod_add_int_mul 1 hm
  have h1 : pymod 0 m = 0 := pymod_eq_self (le_refl 0) hm
  simpa [h1] using h0

theorem pymod_add_pymod (x c : ℚ) {m : ℚ} (hm : 0 < m) :
    pymod (pymod x m + c) m = pymod (x + c) m := by
  have harg : pymod x m + c = (x + c) + m * ((-⌊x / m⌋ : ℤ) : ℚ) := by
    unfold pymod
    push_cast
    ring
  rw [harg, pymod_add_int_mul _ hm]

theorem lookup_append_assoc {κ α : Type} [BEq κ] (l1 l2 : List (κ × α)) (q : κ) :
    (l1 ++ l2).lookup q = ((l1.lookup q).orElse (fun _ => l2.lookup q)) := by
  induction l1 with
  | nil => simp [List.lookup]
  | cons hd tl ih =>
    rcases hd with ⟨a, b⟩
    simp only [List.cons_append, List.lookup]
    cases h : q == a
    · simpa [h] using ih
    · simp [h]

theorem lookup_replace_self {κ α : Type} [BEq κ] [LawfulBEq κ] [DecidableEq κ]
    (l : List (κ × α)) (k : κ) (v : α) (h : (l.lookup k).isSome = true) :
    (l.map (fun kv => if kv.1 = k then (k, v) else kv)).lookup k = some v := by
  induction l with
  | nil => simp [List.lookup] at h
  | cons hd tl ih =>
    rcases hd with ⟨a, b⟩
    simp only [List.map_cons]
    by_cases hk : a = k
    · subst hk
      rw [if_pos rfl]
      simp [List.lookup]
    · rw [if_neg hk]
      have hne : (k == a) = false := beq_false_of_ne (fun he => hk he.symm)
      simp only [List.lookup, hne]
      apply ih
      simpa [List.lookup, hne] using h

theorem lookup_replace_ne {κ α : Type} [BEq κ] [LawfulBEq κ] [DecidableEq κ]
    (l : List (κ × α)) (k q : κ) (v : α) (h : q ≠ k) :
    (l.map (fun kv => if kv.1 = k then (k, v) else kv)).lookup q = l.lookup q := by
  induction l with
  | nil => simp
  | cons hd tl ih =>
    rcases hd with ⟨a, b⟩
    simp only [List.map_cons]
    by_cases hk : a = k
    · subst hk
      rw [if_pos rfl]
      simp only [List.lookup, beq_false_of_ne h]
      exact ih
    · rw [if_neg hk]
      simp only [List.lookup]
      cases hqa : q == a
      · simpa [hqa] using ih
      · simp [hqa]

theorem sput_lookup_self {α : Type} (l : List (String × α)) (k : String) (v : α) :
    (sput l k v).lookup k = some v := by
  unfold sput
  split_ifs with h
  · exact lookup_replace_self l k v h
  · rw [lookup_append_assoc]
    have : l.lookup k = none := by
      cases hl : l.lookup k
      · rfl
      · rw [hl] at h; simp at h
    simp [this, List.lookup]

theorem sput_lookup_ne {α : Type} (l : List (String × α)) (k q : String) (v : α)
    (h : q ≠ k) : (sput l k v).lookup q = l.lookup q := by
  unfold sput
  split_ifs with hp
  · exact lookup_replace_ne l k q v h
  · rw [lookup_append_assoc]
    cases hl : l.lookup q
    · simp [List.lookup, beq_false_of_ne h]
    · simp

theorem models_updateParam_move_range (s : Models.LightSegment) (v : PyVal) :
    Models.updateParam s "move_range" v =
      (if s.current_position < v.toRatPair.1 then
        { s with move_range := v.toRatPair, current_position := v.toRatPair.1 }
      else if s.current_position > v.toRatPair.2 then
        { s with move_range := v.toRatPair, current_position := v.toRatPair.2 }
      else { s with move_range := v.toRatPair }) := rfl

theorem core_updateParam_move_range (t : Core.LightSegment) (v : PyVal) :
    Core.updateParam t "move_range" v = { t with move_range := v.toRatPair } := rfl

/-! Claim C10. -/

/-- Claim C10, counterexample: in the core variant
(src/core/light_segment.py lines 29-44) `update_param("move_range", [0, 10])`
on a segment whose `current_position` is 50 stores the new range but leaves
`current_position` at 50, outside `[0, 10]` — refuting the claim as stated
over every segment of the program. -/
theorem C10_counterexample :
    (Core.updateParam exCoreSeg50 "move_range"
        (PyVal.list [PyVal.int 0, PyVal.int 10])).move_range = (0, 10) ∧
    (Core.updateParam exCoreSeg50 "move_range"
        (PyVal.list [PyVal.int 0, PyVal.int 10])).current_position = 50 ∧
    ¬ ((50 : ℚ) ≤ 10) := by
  refine ⟨rfl, rfl, by norm_num⟩

/-- Claim C10 as amended: in the models variant
(src/models/light_segment.py lines 48-66) `update_param("move_range",
[lo, hi])` with `lo ≤ hi` clamps `current_position` into the new range —
below `lo` it becomes `lo`, above `hi` it becomes `hi`, otherwise it is
unchanged; the core variant stores the new range and leaves
`current_position` untouched. -/
theorem C10_move_range_update (s : Models.LightSegment) (t : Core.LightSegment)
    (lo hi : ℚ) (hle : lo ≤ hi) :
    ((Models.updateParam s "move_range" (PyVal.list [PyVal.float lo, PyVal.float hi])).move_range
      = (lo, hi) ∧
     lo ≤ (Models.updateParam s "move_range" (PyVal.list [PyVal.float lo, PyVal.float hi])).current_position ∧
     (Models.updateParam s "move_range" (PyVal.list [PyVal.float lo, PyVal.float hi])).current_position ≤ hi ∧
     (s.current_position < lo →
       (Models.updateParam s "move_range" (PyVal.list [PyVal.float lo, PyVal.float hi])).current_position = lo) ∧
     (hi < s.current_position →
       (Models.updateParam s "move_range" (PyVal.list [PyVal.float lo, PyVal.float hi])).current_position = hi) ∧
     (lo ≤ s.current_position → s.current_position ≤ hi →
       (Models.updateParam s "move_range" (PyVal.list [PyVal.float lo, PyVal.float hi])).current_position
         = s.current_position)) ∧
    ((Core.updateParam t "move_range" (PyVal.list [PyVal.float lo, PyVal.float hi])).move_range
      = (lo, hi) ∧
     (Core.updateParam t "move_range" (PyVal.list [PyVal.float lo, PyVal.float hi])).current_position
      = t.current_position) := by
  have hpair : (PyVal.list [PyVal.float lo, PyVal.float hi]).toRatPair = (lo, hi) := rfl
  constructor
  · rw [models_updateParam_move_range, hpair]
    split_ifs with h1 h2
    · exact ⟨rfl, le_refl lo, hle, fun _ => rfl, fun hhi => by linarith,
        fun hlo _ => by linarith⟩
    · exact ⟨rfl, hle, le_refl hi, fun hl => absurd hl h1, fun _ => rfl,
        fun _ hhi => by simp at h2; linarith⟩
    · push_neg at h1 h2
      exact ⟨rfl, h1, h2, fun hl => absurd hl (not_lt.mpr h1),
        fun hh => absurd hh (not_lt.mpr h2), fun _ _ => rfl⟩
  · rw [core_updateParam_move_range, hpair]
    exact ⟨rfl, rfl⟩

/-- Witness for `C10_move_range_update` at concrete segments and an explicit
range `[0, 10]`. -/
theorem C10_move_range_update_witness :
    (0 : ℚ) ≤ 10 ∧
    (Models.updateParam
        (Models.mkSegment 1 [1, 1, 1, 1] [1, 1, 1, 1] [1, 1, 1] 5 (0, 200) 50 false [0, 0, 0, 0, 0])
        "move_range" (PyVal.list [PyVal.float 0, PyVal.float 10])).current_position = 10 ∧
    (Core.updateParam exCoreSeg50
        "move_range" (PyVal.list [PyVal.float 0, PyVal.float 10])).current_position = 50 := by
  have h := C10_move_range_update
    (Models.mkSegment 1 [1, 1, 1, 1] [1, 1, 1, 1] [1, 1, 1] 5 (0, 200) 50 false [0, 0, 0, 0, 0])
    exCoreSeg50 0 10 (by norm_num)
  refine ⟨by norm_num, ?_, ?_⟩
  · exact h.1.2.2.2.2.1 (by norm_num [Models.mkSegment])
  · rw [h.2.2]; rfl

/-! Claim C6. -/

/-- Claim C6, counterexample: the models variant
(src/models/light_segment.py lines 148-152) applies QUADRATIC easing on the
fade-in ramp, so with `dimmer_time = [0, 100, 900, 1000, 1000]` and
`fade = true` the brightness at `t = 50 ms` (0.05 s) is `(50/100)² = 1/4`,
not the claimed `1/2`. -/
theorem C6_counterexample :
    Models.applyDimming exModelsFadeSeg (1 / 20) = 1 / 4 ∧
    ((1 : ℚ) / 4) ≠ 1 / 2 := by
  refine ⟨?_, by norm_num⟩
  norm_num [Models.applyDimming, exModelsFadeSeg, Models.mkSegment, pymod, pytrunc]

/-- Claim C6 as amended: the linear fade-in ramp holds in the CORE variant
(src/core/light_segment.py lines 104-105): with
`dimmer_time = [F0, F1, F2, F3, C]`, `C > 0` and phase
`t = (elapsed mod C/1000)·1000` lying in `[F0, F1)`, the brightness is
`(t − F0) / (F1 − F0)` (in particular `1/2` at phase 50 ms for the S6
timing); the models variant squares the ramp progress instead. -/
theorem C6_core_linear_fade_in (t : Core.LightSegment) (f0 f1 f2 f3 c : ℤ)
    (hdim : t.dimmer_time = [f0, f1, f2, f3, c]) (hc : 0 < c) (e : ℚ)
    (h0 : (f0 : ℚ) ≤ pymod e ((c : ℚ) / 1000) * 1000)
    (h1 : pymod e ((c : ℚ) / 1000) * 1000 < (f1 : ℚ)) :
    Core.applyDimming t e =
      (pymod e ((c : ℚ) / 1000) * 1000 - (f0 : ℚ)) / ((f1 : ℚ) - (f0 : ℚ)) := by
  unfold Core.applyDimming
  rw [hdim]
  simp only
  rw [if_neg (by omega : ¬ c ≤ 0), if_neg (not_lt.mpr h0), if_pos ⟨h0, h1⟩]

/-- Witness for `C6_core_linear_fade_in` at the S6 timing and
`elapsed = 0.05 s`: the phase is 50 ms and the brightness is `1/2`. -/
theorem C6_core_linear_fade_in_witness :
    Core.applyDimming exCoreFadeSeg (1 / 20) = 1 / 2 := by
  have hph : pymod ((1 : ℚ) / 20) (((1000 : ℤ) : ℚ) / 1000) * 1000 = 50 := by
    norm_num [pymod]
  have h := C6_core_linear_fade_in exCoreFadeSeg 0 100 900 1000 1000 rfl
    (by norm_num) (1 / 20) (by rw [hph]; norm_num) (by rw [hph]; norm_num)
  rw [h, hph]
  norm_num

/-! Claim C9. -/

/-- Claim C9, counterexample: in the scene whose effects were added in the
order 1, 3, 2, removing the current effect 1 promotes effect 3 — the first
remaining key in dict insertion order (`next(iter(self.effects.keys()))`,
src/models/light_scene.py line 54) — although the remaining effect with the
lowest id is 2. -/
theorem C9_counterexample :
    exScene132.current_effect_ID = some 1 ∧
    (Models.removeEffect exScene132 1).effects.map Prod.fst = [3, 2] ∧
    (Models.removeEffect exScene132 1).current_effect_ID = some 3 ∧
    (3 : ℤ) ≠ 2 := by
  refine ⟨rfl, rfl, rfl, by norm_num⟩

/-- Claim C9 as amended: removing the currently selected effect promotes the
FIRST remaining effect in dict insertion order (not the one with the lowest
id); if no effects remain the current id becomes `None`; removing a
non-current or unknown effect leaves the current id unchanged. -/
theorem C9_remove_effect (sc : Models.LightScene) (eid : ℤ) :
    ((sc.effects.lookup eid).isSome = true → sc.current_effect_ID = some eid →
      (Models.removeEffect sc eid).effects = sc.effects.filter (fun kv => kv.1 ≠ eid) ∧
      (Models.removeEffect sc eid).current_effect_ID =
        (sc.effects.filter (fun kv => kv.1 ≠ eid)).head?.map Prod.fst) ∧
    ((sc.effects.lookup eid).isSome = true → sc.current_effect_ID ≠ some eid →
      (Models.removeEffect sc eid).effects = sc.effects.filter (fun kv => kv.1 ≠ eid) ∧
      (Models.removeEffect sc eid).current_effect_ID = sc.current_effect_ID) ∧
    ((sc.effects.lookup eid).isSome = false → Models.removeEffect sc eid = sc) := by
  refine ⟨?_, ?_, ?_⟩
  · intro hmem hcur
    unfold Models.removeEffect
    rw [if_pos hmem, if_pos hcur]
    refine ⟨rfl, ?_⟩
    cases h : sc.effects.filter (fun kv => kv.1 ≠ eid) with
    | nil => simp [h]
    | cons a l => simp [h]
  · intro hmem hcur
    unfold Models.removeEffect
    rw [if_pos hmem, if_neg hcur]
    exact ⟨rfl, rfl⟩
  · intro hmem
    unfold Models.removeEffect
    rw [if_neg (by simp [hmem])]

/-- Witness for `C9_remove_effect`: removing the current effect 1 from the
scene built in order 1, 3, 2 promotes effect 3. -/
theorem C9_remove_effect_witness :
    (Models.removeEffect exScene132 1).current_effect_ID = some 3 := by
  have h := (C9_remove_effect exScene132 1).1 rfl rfl
  rw [h.2]
  rfl

/-! Claim C8. -/

/-- Claim C8, counterexample: a successful `/palette/B` update on a handler
whose effect 1 currently uses palette "A" sets that effect's
`current_palette` to "B" (src/controllers/osc_handler.py lines 320-321),
refuting the claim that no effect's current palette changes. -/
theorem C8_counterexample :
    (exOscState.light_effects.lookup 1).map Models.LightEffect.current_palette
      = some "A" ∧
    ((Osc.paletteCallback exOscState "B"
        (PyVal.list [PyVal.int 0, PyVal.int 0, PyVal.int 0])).light_effects.lookup 1).map
      Models.LightEffect.current_palette = some "B" ∧
    ("B" : String) ≠ "A" := by
  refine ⟨rfl, rfl, by simp⟩

/-- Claim C8 as amended: a successful `/palette/X` update stores the clamped
RGB triples as palette `X` and leaves every other stored palette unchanged,
but it ALSO sets `current_palette := X` on every effect (leaving each
effect's id and segments untouched); nothing else in the handler state
changes. -/
theorem C8_palette_update (st : Osc.OscState) (pid : String) (flat : List PyVal)
    (hpid : pid ∈ (["A", "B", "C", "D", "E"] : List String))
    (hlen : flat.length % 3 = 0) :
    (Osc.paletteCallback st pid (.list flat)).color_palettes.lookup pid
      = some (Osc.groupTriples flat) ∧
    (∀ q, q ≠ pid →
      (Osc.paletteCallback st pid (.list flat)).color_palettes.lookup q
        = st.color_palettes.lookup q) ∧
    (Osc.paletteCallback st pid (.list flat)).light_effects
      = st.light_effects.map (fun kv => (kv.1, { kv.2 with current_palette := pid })) := by
  unfold Osc.paletteCallback
  rw [if_pos hpid]
  simp only
  rw [if_neg (by simp [hlen])]
  exact ⟨sput_lookup_self _ _ _, fun q hq => sput_lookup_ne _ _ _ _ hq, rfl⟩

/-- Witness for `C8_palette_update`: the `/palette/B` message with payload
`[0, 300, -5]` stores the clamped triple `[0, 255, 0]` as palette B, leaves
palette A unchanged, and flips effect 1's current palette to "B". -/
theorem C8_palette_update_witness :
    (Osc.paletteCallback exOscState "B"
        (PyVal.list [PyVal.int 0, PyVal.int 300, PyVal.int (-5)])).color_palettes.lookup "B"
      = some [[0, 255, 0]] ∧
    (Osc.paletteCallback exOscState "B"
        (PyVal.list [PyVal.int 0, PyVal.int 300, PyVal.int (-5)])).color_palettes.lookup "A"
      = exOscState.color_palettes.lookup "A" ∧
    (Osc.paletteCallback exOscState "B"
        (PyVal.list [PyVal.int 0, PyVal.int 300, PyVal.int (-5)])).light_effects
      = [(1, { Models.mkEffect 1 10 60 with current_palette := "B" })] := by
  have h := C8_palette_update exOscState "B"
    [PyVal.int 0, PyVal.int 300, PyVal.int (-5)] (by simp) (by simp)
  refine ⟨?_, ?_, ?_⟩
  · rw [h.1]
    rfl
  · exact h.2.1 "A" (by simp)
  · rw [h.2.2]
    rfl

/-! Claim C7. -/

/-- Claim C7: the `/segment/` family does discard messages for unknown ids
with the model unchanged, and the `/object/` alias does auto-create a missing
effect with the config defaults — but auto-creating a missing SEGMENT is
broken: `controllers/osc_handler.py` never imports `LightSegment`, so line
189 raises `NameError` after the effect has been inserted and before any
segment exists or any parameter is applied.  The last two conjuncts evaluate
the handler on the exact failing paths. -/
theorem C7_object_segment_create_raises (st : Osc.OscState) (eid sid : ℤ)
    (param : String) (v : PyVal) :
    (st.light_effects.lookup eid = none →
      Osc.effectSegmentCallback st eid sid param v = st) ∧
    (∀ eff, st.light_effects.lookup eid = some eff →
      eff.segments.lookup sid = none →
      Osc.effectSegmentCallback st eid sid param v = st) ∧
    (st.light_effects.lookup eid = none →
      Osc.effectObjectCallback st eid sid param v =
        ({ st with light_effects :=
            st.light_effects ++ [(eid, Models.mkEffect eid DEFAULT_LED_COUNT DEFAULT_FPS)] },
         .error "NameError: name LightSegment is not defined")) ∧
    (∀ eff, st.light_effects.lookup eid = some eff →
      eff.segments.lookup sid = none →
      Osc.effectObjectCallback st eid sid param v =
        (st, .error "NameError: name LightSegment is not defined")) := by
  refine ⟨?_, ?_, ?_, ?_⟩
  · intro hnone
    unfold Osc.effectSegmentCallback
    rw [hnone]
  · intro eff heff hseg
    unfold Osc.effectSegmentCallback
    simp only [heff, hseg]
  · intro hnone
    unfold Osc.effectObjectCallback
    simp only [hnone]
    rw [lookup_append_assoc, hnone]
    simp only [Option.orElse, List.lookup, beq_self_eq_true]
    rw [if_neg (by simp [Osc.oscModuleNames])]
  · intro eff heff hseg
    unfold Osc.effectObjectCallback
    simp only [heff, hseg]
    rw [if_neg (by simp [Osc.oscModuleNames])]

/-- Witness for `C7_object_segment_create_raises`: the spec's S5 scenario
`/effect/7/object/3/color {"colors":[1,2,3,0]}` against an empty model —
the `/segment/` variant discards it, while the `/object/` variant creates
effect 7 (led_count 225, fps 60, no segments) and then raises `NameError`
instead of creating segment 3. -/
theorem C7_object_segment_create_raises_witness :
    Osc.effectSegmentCallback exEmptyOsc 7 3 "color" exColorsMsg = exEmptyOsc ∧
    Osc.effectObjectCallback exEmptyOsc 7 3 "color" exColorsMsg =
      ({ light_effects := [(7, Models.mkEffect 7 225 60)],
         color_palettes := DEFAULT_COLOR_PALETTES },
       .error "NameError: name LightSegment is not defined") := by
  have h := C7_object_segment_create_raises exEmptyOsc 7 3 "color" exColorsMsg
  refine ⟨h.1 rfl, ?_⟩
  rw [h.2.2.1 rfl]
  rfl

theorem foldl_dput_append {α β : Type} (g : ℤ × α → β) (l : List (ℤ × α)) :
    ∀ acc : List (ℤ × β),
      (∀ kv ∈ l, acc.lookup kv.1 = none) →
      (l.map Prod.fst).Nodup →
      l.foldl (fun a kv => Models.dput a kv.1 (g kv)) acc
        = acc ++ l.map (fun kv => (kv.1, g kv)) := by
  induction l with
  | nil =>
    intro acc _ _
    simp
  | cons kv rest ih =>
    intro acc hfresh hnd
    have hkv : acc.lookup kv.1 = none := hfresh kv (List.mem_cons_self kv rest)
    have hdp : Models.dput acc kv.1 (g kv) = acc ++ [(kv.1, g kv)] := by
      unfold Models.dput
      rw [hkv]
      simp
    have hndr : (rest.map Prod.fst).Nodup := (List.nodup_cons.mp (by simpa using hnd)).2
    have hnotin : kv.1 ∉ rest.map Prod.fst := (List.nodup_cons.mp (by simpa using hnd)).1
    rw [List.foldl_cons, hdp, ih (acc ++ [(kv.1, g kv)]) ?_ hndr]
    · simp
    · intro kv' h'
      rw [lookup_append_assoc, hfresh kv' (List.mem_cons_of_mem kv h')]
      have hne : kv'.1 ≠ kv.1 := by
        intro he
        exact hnotin (he ▸ List.mem_map_of_mem Prod.fst h')
      simp [List.lookup, beq_false_of_ne hne]

theorem foldl_addSegment (l : List (ℤ × Models.SegmentDoc)) :
    ∀ e0 : Models.LightEffect,
      l.foldl (fun e kv2 => Models.addSegment e kv2.1 (Models.segOfDoc kv2.2)) e0
        = { e0 with segments := l.foldl (fun a kv2 => Models.dput a kv2.1 (Models.segOfDoc kv2.2)) e0.segments } := by
  induction l with
  | nil =>
    intro e0
    rfl
  | cons kv rest ih =>
    intro e0
    rw [List.foldl_cons, ih]
    rfl

theorem foldl_addEffect (l : List (ℤ × Models.EffectDoc))
    (bld : Models.EffectDoc → Models.LightEffect) :
    ∀ sc0 : Models.LightScene,
      l.foldl (fun sc kv => Models.addEffect sc kv.1 (bld kv.2)) sc0
        = { sc0 with
            effects := l.foldl (fun a kv => Models.dput a kv.1 { bld kv.2 with current_palette := sc0.current_palette }) sc0.effects
            current_effect_ID := match sc0.current_effect_ID with | some c => some c | none => (l.map Prod.fst).head? } := by
  induction l with
  | nil =>
    intro sc0
    cases hc : sc0.current_effect_ID <;> simp [hc] <;> rw [← hc]
  | cons kv rest ih =>
    intro sc0
    rw [List.foldl_cons, ih]
    unfold Models.addEffect
    cases hc : sc0.current_effect_ID <;> simp [hc]

theorem models_wrap_tick (s : Models.LightSegment) (fps : ℤ) (lo hi d y : ℚ)
    (hmr : s.move_range = (lo, hi)) (hwrap : s.is_edge_reflect = false)
    (hd : s.move_speed * (1 / (fps : ℚ)) = d)
    (hd1 : 0 < d) (hd2 : d ≤ hi - lo)
    (hpos : s.current_position = lo + pymod y (hi - lo))
    (hw : 0 < hi - lo)
    (hnz : pymod (y + d) (hi - lo) ≠ 0) :
    (Models.updatePosition s fps).current_position = lo + pymod (y + d) (hi - lo) ∧
    (Models.updatePosition s fps).move_range = (lo, hi) ∧
    (Models.updatePosition s fps).is_edge_reflect = false ∧
    (Models.updatePosition s fps).move_speed = s.move_speed := by
  have hr0 : 0 ≤ pymod y (hi - lo) := pymod_nonneg y hw
  have hr1 : pymod y (hi - lo) < hi - lo := pymod_lt y hw
  have hkey : pymod (y + d) (hi - lo) = pymod (pymod y (hi - lo) + d) (hi - lo) :=
    (pymod_add_pymod y d hw).symm
  unfold Models.updatePosition
  rw [if_neg (by simp [hwrap])]
  simp only [hmr]
  split_ifs with h1 h2
  · exfalso
    rw [hpos, hd] at h1
    linarith
  · rw [hpos, hd] at h2
    have hgt : hi - lo < pymod y (hi - lo) + d := by linarith
    have hcomp : pymod (pymod y (hi - lo) + d) (hi - lo)
        = pymod y (hi - lo) + d - (hi - lo) := by
      have harg : pymod y (hi - lo) + d
          = (pymod y (hi - lo) + d - (hi - lo)) + (hi - lo) * ((1 : ℤ) : ℚ) := by
        push_cast
        ring
      have hred : pymod (pymod y (hi - lo) + d) (hi - lo)
          = pymod (pymod y (hi - lo) + d - (hi - lo)) (hi - lo) := by
        calc pymod (pymod y (hi - lo) + d) (hi - lo)
            = pymod ((pymod y (hi - lo) + d - (hi - lo)) + (hi - lo) * ((1 : ℤ) : ℚ)) (hi - lo) := by
              rw [← harg]
          _ = pymod (pymod y (hi - lo) + d - (hi - lo)) (hi - lo) := pymod_add_int_mul _ hw
      rw [hred]
      apply pymod_eq_self
      · linarith
      · linarith
    refine ⟨?_, rfl, hwrap, rfl⟩
    rw [hpos, hd, hkey, hcomp]
    ring
  · have hle : pymod y (hi - lo) + d ≤ hi - lo := by
      rw [hpos, hd] at h2
      push_neg at h2
      linarith
    rcases lt_or_eq_of_le hle with hlt | heq
    · refine ⟨?_, rfl, hwrap, rfl⟩
      rw [hpos, hd, hkey, pymod_eq_self (by linarith) hlt]
      ring
    · exfalso
      apply hnz
      rw [hkey, heq]
      exact pymod_self hw

theorem core_wrap_tick (t : Core.LightSegment) (fps : ℤ) (lo hi d y : ℚ)
    (hmr : t.move_range = (lo, hi)) (hwrap : t.is_edge_reflect = false)
    (hd : t.move_speed * (1 / (fps : ℚ)) = d)
    (hd1 : 0 < d) (hd2 : d ≤ hi - lo)
    (hpos : t.current_position = lo + pymod y (hi - lo))
    (hw : 0 < hi - lo)
    (hnz : pymod (y + d) (hi - lo) ≠ 0) :
    (Core.updatePosition t fps).current_position = lo + pymod (y + d) (hi - lo) ∧
    (Core.updatePosition t fps).move_range = (lo, hi) ∧
    (Core.updatePosition t fps).is_edge_reflect = false ∧
    (Core.updatePosition t fps).move_speed = t.move_speed := by
  have hr0 : 0 ≤ pymod y (hi - lo) := pymod_nonneg y hw
  have hr1 : pymod y (hi - lo) < hi - lo := pymod_lt y hw
  have hkey : pymod (y + d) (hi - lo) = pymod (pymod y (hi - lo) + d) (hi - lo) :=
    (pymod_add_pymod y d hw).symm
  unfold Core.updatePosition
  rw [if_neg (by simp [hwrap])]
  simp only [hmr]
  split_ifs with h1 h2
  · exfalso
    rw [hpos, hd] at h1
    linarith
  · rw [hpos, hd] at h2
    have hgt : hi - lo < pymod y (hi - lo) + d := by linarith
    have hcomp : pymod (pymod y (hi - lo) + d) (hi - lo)
        = pymod y (hi - lo) + d - (hi - lo) := by
      have harg : pymod y (hi - lo) + d
          = (pymod y (hi - lo) + d - (hi - lo)) + (hi - lo) * ((1 : ℤ) : ℚ) := by
        push_cast
        ring
      have hred : pymod (pymod y (hi - lo) + d) (hi - lo)
          = pymod (pymod y (hi - lo) + d - (hi - lo)) (hi - lo) := by
        calc pymod (pymod y (hi - lo) + d) (hi - lo)
            = pymod ((pymod y (hi - lo) + d - (hi - lo)) + (hi - lo) * ((1 : ℤ) : ℚ)) (hi - lo) := by
              rw [← harg]
          _ = pymod (pymod y (hi - lo) + d - (hi - lo)) (hi - lo) := pymod_add_int_mul _ hw
      rw [hred]
      apply pymod_eq_self
      · linarith
      · linarith
    refine ⟨?_, rfl, hwrap, rfl⟩
    have hsmall : pymod ((lo + pymod y (hi - lo) + d) - hi) (hi - lo + 1)
        = pymod y (hi - lo) + d - (hi - lo) := by
      have harg : (lo + pymod y (hi - lo) + d) - hi = pymod y (hi - lo) + d - (hi - lo) := by
        ring
      rw [harg]
      apply pymod_eq_self
      · linarith
      · linarith
    rw [hpos, hd, hkey, hcomp, hsmall]
  · have hle : pymod y (hi - lo) + d ≤ hi - lo := by
      rw [hpos, hd] at h2
      push_neg at h2
      linarith
    rcases lt_or_eq_of_le hle with hlt | heq
    · refine ⟨?_, rfl, hwrap, rfl⟩
      rw [hpos, hd, hkey, pymod_eq_self (by linarith) hlt]
      ring
    · exfalso
      apply hnz
      rw [hkey, heq]
      exact pymod_self hw

theorem models_wrap_tickN (fps : ℤ) (lo hi d : ℚ) (hw : 0 < hi - lo)
    (hd1 : 0 < d) (hd2 : d ≤ hi - lo) (N : ℕ) :
    ∀ (s : Models.LightSegment) (y : ℚ),
      s.move_range = (lo, hi) → s.is_edge_reflect = false →
      s.move_speed * (1 / (fps : ℚ)) = d →
      s.current_position = lo + pymod y (hi - lo) →
      (∀ n : ℕ, n < N → pymod (y + ((n : ℚ) + 1) * d) (hi - lo) ≠ 0) →
      (Models.tickN fps N s).current_position = lo + pymod (y + (N : ℚ) * d) (hi - lo) := by
  induction N with
  | zero =>
    intro s y hmr hwrap hd hpos hnz
    simpa [Models.tickN] using hpos
  | succ N ih =>
    intro s y hmr hwrap hd hpos hnz
    have hstep := models_wrap_tick s fps lo hi d y hmr hwrap hd hd1 hd2 hpos hw
      (by simpa using hnz 0 (Nat.succ_pos N))
    have hrec := ih (Models.updatePosition s fps) (y + d) hstep.2.1 hstep.2.2.1
      (by rw [hstep.2.2.2]; exact hd) hstep.1
      (fun n hn => by
        have harg : (y + d) + ((n : ℚ) + 1) * d = y + (((n + 1 : ℕ) : ℚ) + 1) * d := by
          push_cast
          ring
        rw [harg]
        exact hnz (n + 1) (by omega))
    have hshape : Models.tickN fps (N + 1) s
        = Models.tickN fps N (Models.updatePosition s fps) := rfl
    rw [hshape, hrec]
    have harg : (y + d) + (N : ℚ) * d = y + ((N + 1 : ℕ) : ℚ) * d := by
      push_cast
      ring
    rw [harg]

theorem core_wrap_tickN (fps : ℤ) (lo hi d : ℚ) (hw : 0 < hi - lo)
    (hd1 : 0 < d) (hd2 : d ≤ hi - lo) (N : ℕ) :
    ∀ (t : Core.LightSegment) (y : ℚ),
      t.move_range = (lo, hi) → t.is_edge_reflect = false →
      t.move_speed * (1 / (fps : ℚ)) = d →
      t.current_position = lo + pymod y (hi - lo) →
      (∀ n : ℕ, n < N → pymod (y + ((n : ℚ) + 1) * d) (hi - lo) ≠ 0) →
      (Core.tickN fps N t).current_position = lo + pymod (y + (N : ℚ) * d) (hi - lo) := by
  induction N with
  | zero =>
    intro t y hmr hwrap hd hpos hnz
    simpa [Core.tickN] using hpos
  | succ N ih =>
    intro t y hmr hwrap hd hpos hnz
    have hstep := core_wrap_tick t fps lo hi d y hmr hwrap hd hd1 hd2 hpos hw
      (by simpa using hnz 0 (Nat.succ_pos N))
    have hrec := ih (Core.updatePosition t fps) (y + d) hstep.2.1 hstep.2.2.1
      (by rw [hstep.2.2.2]; exact hd) hstep.1
      (fun n hn => by
        have harg : (y + d) + ((n : ℚ) + 1) * d = y + (((n + 1 : ℕ) : ℚ) + 1) * d := by
          push_cast
          ring
        rw [harg]
        exact hnz (n + 1) (by omega))
    have hshape : Core.tickN fps (N + 1) t
        = Core.tickN fps N (Core.updatePosition t fps) := rfl
    rw [hshape, hrec]
    have harg : (y + d) + (N : ℚ) * d = y + ((N + 1 : ℕ) : ℚ) * d := by
      push_cast
      ring
    rw [harg]

/-! Claim C1. -/

/-- Claim C1, counterexample: a reflect-mode segment at position 5 in range
[0, 10] advancing by 25 in one tick lands at 30 and is reflected ONCE
(src/models/light_segment.py lines 84-86) to `2·10 − 30 = −10`, outside the
range — the source reflects only once per boundary, with no loop. -/
theorem C1_counterexample :
    exReflectSeg.move_range = (0, 10) ∧
    (Models.updatePosition exReflectSeg 1).current_position = -10 ∧
    ¬ ((0 : ℚ) ≤ -10) := by
  refine ⟨rfl, ?_, by norm_num⟩
  norm_num [Models.updatePosition, exReflectSeg, Models.mkSegment]

/-- Claim C1 as amended: the invariant
`move_range[0] ≤ current_position ≤ move_range[1]` is preserved by a single
`update_position` tick in BOTH variants and BOTH modes provided the tick's
displacement `move_speed/fps` is at most the range width `hi − lo` in
magnitude; for larger steps both variants can land outside (the source
reflects once per boundary and the wrap variants shift or reduce only once,
so the claim's arbitrary-overshoot cases fail). -/
theorem C1_position_invariant (s : Models.LightSegment) (t : Core.LightSegment)
    (fps : ℤ) (lo hi : ℚ)
    (hs : s.move_range = (lo, hi)) (ht : t.move_range = (lo, hi))
    (hsp1 : lo ≤ s.current_position) (hsp2 : s.current_position ≤ hi)
    (htp1 : lo ≤ t.current_position) (htp2 : t.current_position ≤ hi)
    (hds : |s.move_speed * (1 / (fps : ℚ))| ≤ hi - lo)
    (hdt : |t.move_speed * (1 / (fps : ℚ))| ≤ hi - lo) :
    (lo ≤ (Models.updatePosition s fps).current_position ∧
     (Models.updatePosition s fps).current_position ≤ hi) ∧
    (lo ≤ (Core.updatePosition t fps).current_position ∧
     (Core.updatePosition t fps).current_position ≤ hi) := by
  have hlohi : lo ≤ hi := by
    have := abs_nonneg (s.move_speed * (1 / (fps : ℚ)))
    linarith [le_trans this hds]
  constructor
  · have habs := abs_le.mp hds
    unfold Models.updatePosition
    simp only [hs]
    split_ifs with hr h1 h2 h3 h4 <;> simp only <;> constructor <;> linarith
  · have habs := abs_le.mp hdt
    unfold Core.updatePosition
    simp only [ht]
    split_ifs with hr h1 h2 h3 h4 <;> simp only
    · constructor <;> linarith
    · constructor <;> linarith
    · constructor <;> linarith
    · have hid : pymod (lo - (t.current_position + t.move_speed * (1 / (fps : ℚ))))
          (hi - lo + 1) = lo - (t.current_position + t.move_speed * (1 / (fps : ℚ))) := by
        apply pymod_eq_self <;> simp only at h3 <;> linarith
      rw [hid]
      constructor <;> linarith
    · have hid : pymod ((t.current_position + t.move_speed * (1 / (fps : ℚ))) - hi)
          (hi - lo + 1) = (t.current_position + t.move_speed * (1 / (fps : ℚ))) - hi := by
        apply pymod_eq_self <;> simp only at h4 <;> linarith
      rw [hid]
      constructor <;> linarith
    · constructor <;> linarith

/-- Witness for `C1_position_invariant`: one tick of the small-step (speed 3,
1 fps) segments in range [0, 10] keeps both variants inside the range. -/
theorem C1_position_invariant_witness :
    ((0 : ℚ) ≤ (Models.updatePosition exSlowModelsSeg 1).current_position ∧
     (Models.updatePosition exSlowModelsSeg 1).current_position ≤ 10) ∧
    ((0 : ℚ) ≤ (Core.updatePosition exSlowCoreSeg 1).current_position ∧
     (Core.updatePosition exSlowCoreSeg 1).current_position ≤ 10) := by
  exact C1_position_invariant exSlowModelsSeg exSlowCoreSeg 1 0 10 rfl rfl
    (by norm_num [exSlowModelsSeg, Models.mkSegment])
    (by norm_num [exSlowModelsSeg, Models.mkSegment])
    (by norm_num [exSlowCoreSeg, Core.mkSegment])
    (by norm_num [exSlowCoreSeg, Core.mkSegment])
    (by norm_num [exSlowModelsSeg, Models.mkSegment])
    (by norm_num [exSlowCoreSeg, Core.mkSegment])

theorem segView_roundtrip (s : Models.LightSegment) :
    Models.segView (Models.segOfDoc (Models.segToDoc s)) = Models.segView s := by
  simp [Models.segView, Models.segOfDoc, Models.segToDoc, Models.mkSegment]

theorem effOfDoc_roundtrip (e : Models.LightEffect)
    (hnds : (e.segments.map Prod.fst).Nodup) :
    Models.effOfDoc { effect_ID := e.effect_ID, led_count := e.led_count, fps := e.fps, segments := e.segments.map (fun kv2 => (kv2.1, Models.segToDoc kv2.2)) }
      = { effect_ID := e.effect_ID, led_count := e.led_count, fps := e.fps, segments := e.segments.map (fun kv2 => (kv2.1, Models.segOfDoc (Models.segToDoc kv2.2))), current_palette := "A" } := by
  unfold Models.effOfDoc
  simp only
  rw [foldl_addSegment]
  rw [List.foldl_map]
  simp only
  rw [foldl_dput_append (fun kv2 => Models.segOfDoc (Models.segToDoc kv2.2)) e.segments
    (Models.mkEffect e.effect_ID e.led_count e.fps).segments
    (by intro kv hkv; rfl) (by simpa using hnds)]
  rfl

/-! Claim C2. -/

/-- Claim C2, counterexample: a scene holding an effect while
`current_effect_ID` is `None` does not reload identically — the loader's
`add_effect` promotes the first effect to current
(src/models/light_scene.py line 38), and the final restore step skips null
ids (line 226), so the reloaded scene has `current_effect_ID = 1` where the
original had `None`. -/
theorem C2_counterexample :
    exSceneNoCur.current_effect_ID = none ∧
    (Models.loadFromJson (Models.saveToJson exSceneNoCur)).current_effect_ID = some 1 ∧
    (some (1 : ℤ)) ≠ none := by
  exact ⟨rfl, rfl, by simp⟩

/-- Claim C2 as amended: `load(save(S))` agrees with `S` on every field the
claim lists — scene_ID, current_effect_ID, current_palette, palettes, and
for every effect its id, effect_ID, led_count, fps and every segment field
including the restored `current_position` — for every scene whose effect and
segment dicts are well-formed (no duplicate keys, always true of Python
dicts) and whose `current_effect_ID` is non-null whenever effects exist (true
of every scene built through `add_effect`/`remove_effect`); a scene with
effects but a null current id reloads with the first effect promoted to
current. -/
theorem C2_round_trip (S : Models.LightScene)
    (hnd : (S.effects.map Prod.fst).Nodup)
    (hnds : ∀ kv ∈ S.effects, ((kv.2 : Models.LightEffect).segments.map Prod.fst).Nodup)
    (hcur : S.current_effect_ID = none → S.effects = []) :
    Models.sceneView (Models.loadFromJson (Models.saveToJson S)) = Models.sceneView S := by
  unfold Models.loadFromJson Models.saveToJson
  simp only [Option.getD_some]
  rw [foldl_addEffect]
  simp only [List.foldl_map, Models.mkScene]
  rw [foldl_dput_append _ S.effects [] (fun kv _ => rfl) hnd]
  cases hc : S.current_effect_ID with
  | none =>
    have he := hcur hc
    simp [he, Models.sceneView, hc]
  | some c =>
    unfold Models.sceneView
    simp only [List.nil_append, List.map_map, hc, Prod.mk.injEq]
    refine ⟨trivial, trivial, trivial, trivial, ?_⟩
    apply List.map_congr_left
    intro kv hkv
    dsimp only [Function.comp]
    rw [effOfDoc_roundtrip kv.2 (hnds kv hkv)]
    simp [Models.effView, List.map_map, segView_roundtrip]

/-- Witness for `C2_round_trip` on a concrete API-built scene with one
effect and one segment. -/
theorem C2_round_trip_witness :
    Models.sceneView (Models.loadFromJson (Models.saveToJson exScene1))
      = Models.sceneView exScene1 :=
  C2_round_trip exScene1 (by decide) (by decide) (by decide)

theorem intRange_cons {a b : ℤ} (h : a ≤ b) :
    intRange a b = a :: (intRange (a + 1) b) := by
  unfold intRange
  have h1 : (b + 1 - a).toNat = (b + 1 - (a + 1)).toNat + 1 := by omega
  rw [h1, List.range_succ_eq_map]
  simp only [List.map_cons, List.map_map, Nat.cast_zero, add_zero]
  congr 1
  apply List.map_congr_left
  intro i _
  show a + ((i + 1 : ℕ) : ℤ) = a + 1 + (i : ℤ)
  push_cast
  ring

theorem mem_insertByKey {α : Type} (a b : ℤ × α) (l : List (ℤ × α)) :
    b ∈ Models.insertByKey a l ↔ b = a ∨ b ∈ l := by
  induction l with
  | nil => simp [Models.insertByKey]
  | cons hd tl ih =>
    unfold Models.insertByKey
    split_ifs with hlt
    · simp
    · simp only [List.mem_cons, ih]
    -- reorder of the disjuncts
      tauto

theorem mem_sortByKey {α : Type} (b : ℤ × α) (l : List (ℤ × α)) :
    b ∈ Models.sortByKey l ↔ b ∈ l := by
  induction l with
  | nil => simp [Models.sortByKey]
  | cons hd tl ih =>
    have hshape : Models.sortByKey (hd :: tl) = Models.insertByKey hd (Models.sortByKey tl) := rfl
    rw [hshape, mem_insertByKey, ih]
    simp

theorem processSegment_trigger (ledCount : ℤ) (pal : String)
    (s : Models.LightSegment) (ld : Models.LightData)
    (hok : Models.getLightData s pal 0 = .ok ld)
    (hb : 0 < ld.brightness)
    (hr : max 0 (ld.positions.getD 0 0) ≤ min (ledCount - 1) (ld.positions.getD 3 0)) :
    ∀ buf, ∃ err, Models.processSegment ledCount pal buf s = .error err := by
  intro buf
  have h0 : (0 : ℤ) ≤ max 0 (ld.positions.getD 0 0) := le_max_left _ _
  have h1 : max 0 (ld.positions.getD 0 0) ≤ ledCount - 1 :=
    le_trans hr (min_le_left _ _)
  have hcond : ¬ (max 0 (ld.positions.getD 0 0) < 0 ∨
      ledCount ≤ max 0 (ld.positions.getD 0 0)) := by omega
  have hbody : Models.ledLoopBody ledCount ld buf (max 0 (ld.positions.getD 0 0))
      = .error "ImportError: cannot import name interpolate_colors" := by
    unfold Models.ledLoopBody
    rw [if_neg hcond]
    simp [pyImportFrom, colorUtilsNames]
  refine ⟨"ImportError: cannot import name interpolate_colors", ?_⟩
  unfold Models.processSegment
  rw [hok]
  simp only
  rw [if_neg (not_le.mpr hb), intRange_cons hr]
  unfold Models.ledLoop
  rw [hbody]

theorem processSegments_error (ledCount : ℤ) (pal : String) :
    ∀ (l : List (ℤ × Models.LightSegment)) (buf : Models.Buf),
      (∃ kv ∈ l, ∃ ld, Models.getLightData (kv.2 : Models.LightSegment) pal 0 = .ok ld ∧
        0 < ld.brightness ∧
        max 0 (ld.positions.getD 0 0) ≤ min (ledCount - 1) (ld.positions.getD 3 0)) →
      ∃ err, Models.processSegments ledCount pal l buf = .error err := by
  intro l
  induction l with
  | nil =>
    rintro buf ⟨kv, hkv, _⟩
    exact absurd hkv (List.not_mem_nil kv)
  | cons hd tl ih =>
    rcases hd with ⟨k, s⟩
    rintro buf ⟨kv, hkv, ld, hok, hb, hr⟩
    rcases List.mem_cons.mp hkv with heq | htl
    · subst heq
      obtain ⟨err, herr⟩ := processSegment_trigger ledCount pal s ld hok hb hr buf
      refine ⟨err, ?_⟩
      unfold Models.processSegments
      rw [herr]
    · cases hps : Models.processSegment ledCount pal buf s with
      | error e =>
        refine ⟨e, ?_⟩
        unfold Models.processSegments
        rw [hps]
      | ok buf' =>
        obtain ⟨err, h⟩ := ih buf' ⟨kv, htl, ld, hok, hb, hr⟩
        refine ⟨err, ?_⟩
        unfold Models.processSegments
        rw [hps]
        exact h

/-! Claim C4. -/

/-- Claim C4: the models-variant compositor raises instead of producing a
frame whenever any segment has positive brightness and a covered LED range
intersecting `[0, led_count)` — its inner loop starts with
`from utils.color_utils import interpolate_colors` (line 118), a name the
module does not define (`apply_brightness` and `apply_transparency` are
missing too, and `blend_colors` is invoked with two arguments against a
three-parameter signature). -/
theorem C4_models_compositor_raises (e : Models.LightEffect)
    (h : ∃ kv ∈ e.segments, ∃ ld,
      Models.getLightData (kv.2 : Models.LightSegment) e.current_palette 0 = .ok ld ∧
      0 < ld.brightness ∧
      max 0 (ld.positions.getD 0 0) ≤ min (e.led_count - 1) (ld.positions.getD 3 0)) :
    ∃ err, Models.getLedOutput e = .error err := by
  obtain ⟨kv, hkv, ld, hok, hb, hr⟩ := h
  obtain ⟨err, herr⟩ := processSegments_error e.led_count e.current_palette
    (Models.sortByKey e.segments)
    (List.replicate e.led_count.toNat [0, 0, 0], List.replicate e.led_count.toNat 1)
    ⟨kv, (mem_sortByKey kv e.segments).mpr hkv, ld, hok, hb, hr⟩
  refine ⟨err, ?_⟩
  unfold Models.getLedOutput
  simp only [herr]

/-- Witness for `C4_models_compositor_raises`: a 10-LED effect with one
zero-speed, full-brightness segment covering LEDs 2..8 makes `get_led_output`
return an import error instead of a frame. -/
theorem C4_models_compositor_raises_witness :
    ∃ err, Models.getLedOutput exC4eff = .error err := by
  apply C4_models_compositor_raises
  refine ⟨(1, exC4seg), by simp [exC4eff], ⟨1, [2, 4, 6, 8], Models.calculateRgb exC4seg "A", [1, 1, 1, 1]⟩, ?_, by norm_num, by norm_num [exC4eff, Models.mkEffect]⟩
  show Models.getLightData exC4seg "A" 0 = _
  unfold Models.getLightData
  rw [if_neg (by simp [exC4seg, Models.mkSegment])]
  norm_num [exC4seg, Models.mkSegment, pytrunc]

/-! Claim C5. -/

/-- Claim C5, counterexample: a wrap-mode segment in `move_range = [0, 9]`
(span 10) starting at 5 with speed 3 at 1 fps reaches position 2 after five
ticks in both variants, while
`initial + N·speed·dt` reduced modulo span 10 into the range is 0 — the
iterated dynamics is NOT translation modulo `hi − lo + 1` (each wrap shifts
by `hi − lo`). -/
theorem C5_counterexample :
    (Core.tickN 1 5 exWrapCoreSeg).current_position = 2 ∧
    (Models.tickN 1 5 exWrapModelsSeg).current_position = 2 ∧
    (0 : ℚ) + pymod ((5 + 5 * (3 * (1 / 1))) - 0) (9 - 0 + 1) = 0 ∧
    (2 : ℚ) ≠ 0 := by
  refine ⟨?_, ?_, ?_, by norm_num⟩
  · norm_num [Core.tickN, Core.updatePosition, exWrapCoreSeg, Core.mkSegment, pymod]
  · norm_num [Models.tickN, Models.updatePosition, exWrapModelsSeg, Models.mkSegment]
  · norm_num [pymod]

/-- Claim C5 as amended: for a wrap-mode segment with constant speed `v > 0`,
`move_range = [lo, hi]` and per-tick displacement `d = v/fps` at most the
range width, the position after `N` ticks equals
`lo + ((x0 − lo + N·d) mod (hi − lo))` — the effective modulus is the range
WIDTH `hi − lo`, not the claimed span `hi − lo + 1` — in both variants,
provided no tick lands exactly on the upper boundary (the excluded
`pymod … = 0` ties, where the code holds the boundary while the formula
wraps). -/
theorem C5_wrap_closed_form (s : Models.LightSegment) (t : Core.LightSegment)
    (fps : ℤ) (lo hi x0 v : ℚ) (N : ℕ)
    (hs1 : s.move_range = (lo, hi)) (hs2 : s.is_edge_reflect = false)
    (hs3 : s.current_position = x0) (hs4 : s.move_speed = v)
    (ht1 : t.move_range = (lo, hi)) (ht2 : t.is_edge_reflect = false)
    (ht3 : t.current_position = x0) (ht4 : t.move_speed = v)
    (hx1 : lo ≤ x0) (hx2 : x0 < hi)
    (hd1 : 0 < v * (1 / (fps : ℚ))) (hd2 : v * (1 / (fps : ℚ)) ≤ hi - lo)
    (hnz : ∀ n : ℕ, n < N →
      pymod ((x0 - lo) + ((n : ℚ) + 1) * (v * (1 / (fps : ℚ)))) (hi - lo) ≠ 0) :
    (Models.tickN fps N s).current_position
      = lo + pymod ((x0 - lo) + (N : ℚ) * (v * (1 / (fps : ℚ)))) (hi - lo) ∧
    (Core.tickN fps N t).current_position
      = lo + pymod ((x0 - lo) + (N : ℚ) * (v * (1 / (fps : ℚ)))) (hi - lo) := by
  have hw : 0 < hi - lo := by linarith
  constructor
  · apply models_wrap_tickN fps lo hi _ hw hd1 hd2 N s (x0 - lo) hs1 hs2 (by rw [hs4])
    · rw [hs3, pymod_eq_self (by linarith) (by linarith)]
      ring
    · exact hnz
  · apply core_wrap_tickN fps lo hi _ hw hd1 hd2 N t (x0 - lo) ht1 ht2 (by rw [ht4])
    · rw [ht3, pymod_eq_self (by linarith) (by linarith)]
      ring
    · exact hnz

/-- Witness for `C5_wrap_closed_form`: two ticks of the [0, 9]-range wrap
segments at speed 3 land at `0 + ((5 + 2·3) mod 9) = 2` in both variants. -/
theorem C5_wrap_closed_form_witness :
    (Models.tickN 1 2 exWrapModelsSeg).current_position = 2 ∧
    (Core.tickN 1 2 exWrapCoreSeg).current_position = 2 := by
  have hnz : ∀ n : ℕ, n < 2 →
      pymod (((5 : ℚ) - 0) + ((n : ℚ) + 1) * (3 * (1 / ((1 : ℤ) : ℚ)))) (9 - 0) ≠ 0 := by
    intro n hn
    interval_cases n
    · norm_num [pymod]
    · norm_num [pymod]
  have h := C5_wrap_closed_form exWrapModelsSeg exWrapCoreSeg 1 0 9 5 3 2
    rfl rfl rfl rfl rfl rfl rfl rfl (by norm_num) (by norm_num)
    (by norm_num) (by norm_num) hnz
  constructor
  · rw [h.1]
    norm_num [pymod]
  · rw [h.2]
    norm_num [pymod]

theorem lookup_eq_none_keys {α : Type} (l : List (ℤ × α)) (p : ℤ)
    (h : p ∉ l.map Prod.fst) : l.lookup p = none := by
  induction l with
  | nil => rfl
  | cons hd tl ih =>
    simp only [List.map_cons, List.mem_cons] at h
    push_neg at h
    simp [List.lookup, beq_false_of_ne h.1, ih h.2]

theorem applyItem_length (c : ℤ) (buf : List (List ℤ) × List ℚ)
    (it : ℤ × (List ℤ × ℚ)) :
    (Core.applyItem c buf it).1.length = buf.1.length ∧
    (Core.applyItem c buf it).2.length = buf.2.length := by
  unfold Core.applyItem
  split_ifs <;> simp

theorem applyItem_get_ne (c : ℤ) (buf : List (List ℤ) × List ℚ)
    (it : ℤ × (List ℤ × ℚ)) (q : ℤ) (hq0 : 0 ≤ q) (hne : it.1 ≠ q) :
    (Core.applyItem c buf it).1.get? q.toNat = buf.1.get? q.toNat ∧
    (Core.applyItem c buf it).2.get? q.toNat = buf.2.get? q.toNat := by
  unfold Core.applyItem
  split_ifs with h
  · have hnn : it.1.toNat ≠ q.toNat := by omega
    constructor
    · simp [List.getElem?_set_ne hnn]
    · simp [List.getElem?_set_ne hnn]
  · exact ⟨rfl, rfl⟩

theorem applyItem_get_self (c : ℤ) (buf : List (List ℤ) × List ℚ)
    (it : ℤ × (List ℤ × ℚ)) (h : 0 ≤ it.1 ∧ it.1 < c)
    (hl1 : it.1.toNat < buf.1.length) (hl2 : it.1.toNat < buf.2.length) :
    (Core.applyItem c buf it).1.get? it.1.toNat
      = some (Core.compositeStep (buf.1.getD it.1.toNat [0, 0, 0], buf.2.getD it.1.toNat 1) it.2).1 ∧
    (Core.applyItem c buf it).2.get? it.1.toNat
      = some (Core.compositeStep (buf.1.getD it.1.toNat [0, 0, 0], buf.2.getD it.1.toNat 1) it.2).2 := by
  unfold Core.applyItem
  rw [if_pos h]
  constructor
  · simp [List.getElem?_set_self, hl1]
  · simp [List.getElem?_set_self, hl2]

theorem foldl_applyItem_untouched (c : ℤ) (q : ℤ) (hq0 : 0 ≤ q) :
    ∀ (items : List (ℤ × (List ℤ × ℚ))) (buf : List (List ℤ) × List ℚ),
      (∀ it ∈ items, it.1 ≠ q) →
      (items.foldl (Core.applyItem c) buf).1.get? q.toNat = buf.1.get? q.toNat ∧
      (items.foldl (Core.applyItem c) buf).2.get? q.toNat = buf.2.get? q.toNat := by
  intro items
  induction items with
  | nil =>
    intro buf _
    exact ⟨rfl, rfl⟩
  | cons it rest ih =>
    intro buf hne
    rw [List.foldl_cons]
    have h1 := applyItem_get_ne c buf it q hq0 (hne it (List.mem_cons_self it rest))
    have h2 := ih (Core.applyItem c buf it) (fun x hx => hne x (List.mem_cons_of_mem it hx))
    exact ⟨h2.1.trans h1.1, h2.2.trans h1.2⟩

theorem foldl_applyItem_lengths (c : ℤ) :
    ∀ (items : List (ℤ × (List ℤ × ℚ))) (buf : List (List ℤ) × List ℚ),
      (items.foldl (Core.applyItem c) buf).1.length = buf.1.length ∧
      (items.foldl (Core.applyItem c) buf).2.length = buf.2.length := by
  intro items
  induction items with
  | nil =>
    intro buf
    exact ⟨rfl, rfl⟩
  | cons it rest ih =>
    intro buf
    rw [List.foldl_cons]
    have h1 := applyItem_length c buf it
    have h2 := ih (Core.applyItem c buf it)
    exact ⟨h2.1.trans h1.1, h2.2.trans h1.2⟩

theorem foldl_applyItem_hit (c : ℤ) (q : ℤ) (v : List ℤ × ℚ) (hq : 0 ≤ q ∧ q < c) :
    ∀ (items : List (ℤ × (List ℤ × ℚ))) (buf : List (List ℤ) × List ℚ),
      (items.map Prod.fst).Nodup → items.lookup q = some v →
      q.toNat < buf.1.length → q.toNat < buf.2.length →
      (items.foldl (Core.applyItem c) buf).1.get? q.toNat
        = some (Core.compositeStep (buf.1.getD q.toNat [0, 0, 0], buf.2.getD q.toNat 1) v).1 ∧
      (items.foldl (Core.applyItem c) buf).2.get? q.toNat
        = some (Core.compositeStep (buf.1.getD q.toNat [0, 0, 0], buf.2.getD q.toNat 1) v).2 := by
  intro items
  induction items with
  | nil =>
    intro buf _ hlk _ _
    simp [List.lookup] at hlk
  | cons it rest ih =>
    intro buf hnd hlk hl1 hl2
    rcases it with ⟨k, w⟩
    rw [List.foldl_cons]
    by_cases hk : q = k
    · subst hk
      have hv : w = v := by simpa [List.lookup] using hlk
      subst hv
      have hself := applyItem_get_self c buf (q, w) hq hl1 hl2
      have hqn : q ∉ rest.map Prod.fst := (List.nodup_cons.mp (by simpa using hnd)).1
      have hrest_ne : ∀ x ∈ rest, (x : ℤ × (List ℤ × ℚ)).1 ≠ q := by
        intro x hx heq
        exact hqn (heq ▸ List.mem_map_of_mem Prod.fst hx)
      have hu := foldl_applyItem_untouched c q hq.1 rest (Core.applyItem c buf (q, w)) hrest_ne
      exact ⟨hu.1.trans hself.1, hu.2.trans hself.2⟩
    · have hlk2 : rest.lookup q = some v := by
        simpa [List.lookup, beq_false_of_ne hk] using hlk
      have hne := applyItem_get_ne c buf (k, w) q hq.1 (fun he => hk he.symm)
      have hlen := applyItem_length c buf (k, w)
      have ih2 := ih (Core.applyItem c buf (k, w))
        ((List.nodup_cons.mp (by simpa using hnd)).2) hlk2
        (by rw [hlen.1]; exact hl1) (by rw [hlen.2]; exact hl2)
      have hg1 : (Core.applyItem c buf (k, w)).1.getD q.toNat [0, 0, 0]
          = buf.1.getD q.toNat [0, 0, 0] := by
        rw [List.getD_eq_getD_get?, List.getD_eq_getD_get?, hne.1]
      have hg2 : (Core.applyItem c buf (k, w)).2.getD q.toNat 1
          = buf.2.getD q.toNat 1 := by
        rw [List.getD_eq_getD_get?, List.getD_eq_getD_get?, hne.2]
      rw [hg1, hg2] at ih2
      exact ih2

/-- A `filterMap` whose hits keep the scanned element as first component has
first components forming a sublist of the scanned list. -/
theorem map_fst_filterMap_sublist {α β : Type} (f : α → Option (α × β))
    (hf : ∀ x y, f x = some y → y.1 = x) :
    ∀ l : List α, ((l.filterMap f).map Prod.fst).Sublist l := by
  intro l
  induction l with
  | nil => simp
  | cons a t ih =>
    cases h : f a with
    | none =>
      rw [List.filterMap_cons_none h]
      exact ih.cons a
    | some y =>
      rw [List.filterMap_cons_some h, List.map_cons, hf a y h]
      exact ih.cons₂ a

/-- `intRange` enumerates distinct integers. -/
theorem intRange_nodup (a b : ℤ) : (intRange a b).Nodup := by
  unfold intRange
  refine List.Nodup.map ?_ (List.nodup_range _)
  intro i j h
  dsimp only at h
  omega

/-- The sparse light data of a core segment maps each LED index at most once
(its keys are drawn without repetition from an integer range). -/
theorem getLightData_keys_nodup (s : Core.LightSegment) (elapsed : ℚ) :
    ((Core.getLightData s elapsed).map Prod.fst).Nodup := by
  unfold Core.getLightData
  refine List.Nodup.sublist (map_fst_filterMap_sublist _ ?_ _) (intRange_nodup _ _)
  intro x y h
  dsimp only at h
  split_ifs at h
  split at h
  · cases h
  · injection h with h2
    subst h2
    rfl

/-- While the accumulated transparency is still at its initial `1.0`, any
non-transparent contribution plainly overwrites the pixel
(src/core/light_effect.py lines 93-96). -/
theorem compositeStep_opaque (cur : List ℤ × ℚ) (rgb : List ℤ) (tr : ℚ)
    (hcur : 1 ≤ cur.2) (htr : 0 < tr) :
    Core.compositeStep cur (rgb, tr) = (rgb, tr) := by
  have h1 : ¬ tr ≤ 0 := not_le.mpr htr
  simp [Core.compositeStep, h1, hcur]

/-- Folding a run of segments that all contribute full opacity at LED `p`
keeps the transparency buffer at `1.0` there, so each write overwrites the
last: the surviving color is the final segment's. -/
theorem fold_opaque_aux (c : ℤ) (elapsed : ℚ) (p : ℤ) (hp : 0 ≤ p ∧ p < c)
    (cs : Core.LightSegment → List ℤ) :
    ∀ (l : List Core.LightSegment) (buf : List (List ℤ) × List ℚ),
      p.toNat < buf.1.length → p.toNat < buf.2.length →
      buf.2.get? p.toNat = some 1 →
      (∀ s ∈ l, (Core.getLightData s elapsed).lookup p = some (cs s, 1)) →
      (l.foldl (Core.applySegment c elapsed) buf).2.get? p.toNat = some 1 ∧
      ∀ s', l.getLast? = some s' →
        (l.foldl (Core.applySegment c elapsed) buf).1.get? p.toNat = some (cs s') := by
  intro l
  induction l with
  | nil =>
    intro buf _ _ ht _
    refine ⟨ht, ?_⟩
    intro s' h
    simp at h
  | cons s t ih =>
    intro buf hl1 hl2 ht hall
    rw [List.foldl_cons]
    have hhit := foldl_applyItem_hit c p (cs s, 1) hp (Core.getLightData s elapsed) buf
      (getLightData_keys_nodup s elapsed) (hall s (List.mem_cons_self s t)) hl1 hl2
    have hcurt : buf.2.getD p.toNat 1 = 1 := by
      rw [List.getD_eq_getD_get?, ht]
      rfl
    have hstep : Core.compositeStep (buf.1.getD p.toNat [0, 0, 0], buf.2.getD p.toNat 1)
        ((cs s, 1) : List ℤ × ℚ) = (cs s, 1) := by
      apply compositeStep_opaque
      · exact hcurt.ge
      · norm_num
    rw [hstep] at hhit
    have hfold : Core.applySegment c elapsed buf s
        = (Core.getLightData s elapsed).foldl (Core.applyItem c) buf := rfl
    have hlen := foldl_applyItem_lengths c (Core.getLightData s elapsed) buf
    have hl1b : p.toNat < (Core.applySegment c elapsed buf s).1.length := by
      rw [hfold, hlen.1]
      exact hl1
    have hl2b : p.toNat < (Core.applySegment c elapsed buf s).2.length := by
      rw [hfold, hlen.2]
      exact hl2
    have htb : (Core.applySegment c elapsed buf s).2.get? p.toNat = some 1 := by
      rw [hfold]
      exact hhit.2
    have ih2 := ih (Core.applySegment c elapsed buf s) hl1b hl2b htb
      (fun x hx => hall x (List.mem_cons_of_mem s hx))
    cases t with
    | nil =>
      refine ⟨ih2.1, ?_⟩
      intro u hu
      have hs : u = s := by simpa using hu.symm
      subst hs
      exact hhit.1
    | cons a t2 =>
      refine ⟨ih2.1, ?_⟩
      intro u hu
      rw [List.getLast?_cons_cons] at hu
      exact ih2.2 u hu

set_option maxHeartbeats 1000000 in
/-- Concrete light data of the red C3 segment: full cover of LEDs 0-3 at
full opacity. -/
theorem exC3red_data : Core.getLightData exC3red 0 =
    [(0, ([255, 0, 0], 1)), (1, ([255, 0, 0], 1)), (2, ([255, 0, 0], 1)), (3, ([255, 0, 0], 1))] := by
  norm_num +decide [Core.getLightData, Core.applyDimming, Core.calculateRgb, Core.COLOR_MAP,
    exC3red, Core.mkSegment, pytrunc, pymod, intRange, List.range_succ, List.filterMap,
    List.lookup, List.find?, List.scanl]

set_option maxHeartbeats 1000000 in
/-- Concrete light data of the blue C3 segment: full cover of LEDs 0-3 at
full opacity. -/
theorem exC3blue_data : Core.getLightData exC3blue 0 =
    [(0, ([0, 0, 255], 1)), (1, ([0, 0, 255], 1)), (2, ([0, 0, 255], 1)), (3, ([0, 0, 255], 1))] := by
  norm_num +decide [Core.getLightData, Core.applyDimming, Core.calculateRgb, Core.COLOR_MAP,
    exC3blue, Core.mkSegment, pytrunc, pymod, intRange, List.range_succ, List.filterMap,
    List.lookup, List.find?, List.scanl]

/-- The red C3 segment contributes `([255,0,0], 1.0)` at LED 0. -/
theorem exC3red_lookup : (Core.getLightData exC3red 0).lookup 0 = some ([255, 0, 0], 1) := by
  rw [exC3red_data]
  rfl

/-- The blue C3 segment contributes `([0,0,255], 1.0)` at LED 0. -/
theorem exC3blue_lookup : (Core.getLightData exC3blue 0).lookup 0 = some ([0, 0, 255], 1) := by
  rw [exC3blue_data]
  rfl

/-- **C3 (amended).**  In the core-variant compositor `get_led_output`, when
every segment of the effect contributes full opacity (`α = 1`) at an in-range
LED position `p`, the final color at `p` is the color written by the LAST
segment in dict insertion order — not the highest-id segment: the loop runs
over `self.segments.values()` in insertion order with no sort, and each fully
opaque write flips the transparency buffer back to its initial `1.0`, so every
later opaque write plainly overwrites.  (The models-variant compositor never
produces a frame at all; see C4.) -/
theorem C3_last_opaque_wins (e : Core.LightEffect) (elapsed : ℚ) (p : ℤ)
    (cs : Core.LightSegment → List ℤ) (slast : Core.LightSegment)
    (hp : 0 ≤ p ∧ p < e.led_count)
    (hall : ∀ s ∈ e.segments.map Prod.snd,
      (Core.getLightData s elapsed).lookup p = some (cs s, 1))
    (hlast : (e.segments.map Prod.snd).getLast? = some slast) :
    (Core.getLedOutput e elapsed).get? p.toNat = some (cs slast) := by
  have hpn : p.toNat < e.led_count.toNat := by omega
  unfold Core.getLedOutput
  have h := fold_opaque_aux e.led_count elapsed p hp cs (e.segments.map Prod.snd)
    (List.replicate e.led_count.toNat [0, 0, 0], List.replicate e.led_count.toNat 1)
    (by simpa using hpn) (by simpa using hpn)
    (by rw [List.get?_eq_getElem?]; simp [List.getElem?_replicate, hpn])
    hall
  exact h.2 slast hlast

/-- Witness for C3: instantiating the theorem on the concrete two-segment
effect `exC3eff` at LED 0 yields the last-inserted segment's blue. -/
theorem C3_last_opaque_wins_witness :
    (Core.getLedOutput exC3eff 0).get? (0 : ℤ).toNat = some [0, 0, 255] := by
  exact C3_last_opaque_wins exC3eff 0 0
    (fun s => if s.segment_ID = 1 then [0, 0, 255] else [255, 0, 0]) exC3blue
    (by norm_num [exC3eff])
    (by
      intro s hs
      simp only [exC3eff, List.map_cons, List.map_nil, List.mem_cons,
        List.not_mem_nil, or_false] at hs
      rcases hs with h | h
      · subst h
        exact exC3red_lookup
      · subst h
        exact exC3blue_lookup)
    rfl

/-- **C3, counterexample to the literal claim.**  In `exC3eff` the segment
dict was populated with id 2 (red) first and id 1 (blue) second; both fully
cover LED 0 with `α = 1`.  The claim demands the highest-id color
`[255, 0, 0]` (red, id 2); the code produces `[0, 0, 255]` (blue, id 1),
because segments are processed in insertion order and the last opaque write
wins. -/
theorem C3_counterexample :
    exC3red.segment_ID = 2 ∧ exC3blue.segment_ID = 1 ∧
    (Core.getLightData exC3red 0).lookup 0 = some ([255, 0, 0], 1) ∧
    (Core.getLightData exC3blue 0).lookup 0 = some ([0, 0, 255], 1) ∧
    (Core.getLedOutput exC3eff 0).get? 0 = some [0, 0, 255] ∧
    ([0, 0, 255] : List ℤ) ≠ [255, 0, 0] := by
  refine ⟨rfl, rfl, exC3red_lookup, exC3blue_lookup, ?_, by decide⟩
  have h := fold_opaque_aux exC3eff.led_count 0 0 (by norm_num [exC3eff])
    (fun s => if s.segment_ID = 1 then [0, 0, 255] else [255, 0, 0])
    (exC3eff.segments.map Prod.snd)
    (List.replicate exC3eff.led_count.toNat [0, 0, 0],
     List.replicate exC3eff.led_count.toNat 1)
    (by simp [exC3eff]) (by simp [exC3eff])
    (by rw [List.get?_eq_getElem?]; simp [exC3eff, List.getElem?_replicate])
    (by
      intro s hs
      simp only [exC3eff, List.map_cons, List.map_nil, List.mem_cons,
        List.not_mem_nil, or_false] at hs
      rcases hs with h | h
      · subst h
        exact exC3red_lookup
      · subst h
        exact exC3blue_lookup)
  exact h.2 exC3blue rfl

end CSS
